import Mathlib

/-!
# JSS `CryptoManager.c`: a shallow embedding

The native half of `org.mozilla.jss.CryptoManager` is a sequence of calls into
NSS, NSPR and JNI around three pieces of process-wide state: the
`initialized` flag of `initializeAllNative2`, the `JSS_javaVM` pointer and
`globalPasswordCallback`.

The embedding threads an explicit `World` through every C function.  The world
holds that process-wide state, the exception pending in the JNI environment,
the OCSP settings of the certificate database and a chronological trace of the
library calls that were made.  What the libraries answer is not decided by
`CryptoManager.c`; it is supplied by an `Env` of oracles, one field per
library entry point whose result the C code inspects.

`PR_ASSERT` aborts the process in a `DEBUG` build and expands to nothing
otherwise, so every function that contains an assertion returns an `Outcome`:
either it returned, or the process was aborted in a given world.
-/

namespace JSS

/-! ## Data model -/

/-- NSS status code `SECStatus`. -/
inductive SECStatus where
  | SECSuccess
  | SECFailure
  deriving DecidableEq

/-- Java throwable classes named by `CryptoManager.c` (the constants of
`jss_exceptions.h`), and `OTHER` for any class raised by the JVM or by Java
code that the C file does not name. -/
inductive ExcClass where
  | NULL_POINTER_EXCEPTION
  | ALREADY_INITIALIZED_EXCEPTION
  | SECURITY_EXCEPTION
  | GENERAL_SECURITY_EXCEPTION
  | OUT_OF_MEMORY_ERROR
  | GIVE_UP_EXCEPTION
  | OTHER (name : String)
  deriving DecidableEq

/-- A Java throwable: its class and the message it was built with. -/
structure Throwable where
  cls : ExcClass
  msg : Option String := none
  deriving DecidableEq

/-- A Java object, by identity. -/
abbrev JObject := Nat

/-- A JNI global reference: its own identity and the object it keeps alive. -/
structure GlobalRef where
  id : Nat
  obj : JObject
  deriving DecidableEq

/-- Library calls made by `CryptoManager.c`, with the arguments they were
given.  Pointers to C strings are `Option String` (`none` is `NULL`). -/
inductive Event where
  | GetJavaVM
  | JSS_initErrcodeTranslationTable
  | PK11_ConfigurePKCS11 (man libdesc tokdesc ptokdesc slotdesc pslotdesc fslotdesc fpslotdesc : Option String)
      (minPwd : Nat) (pwRequired : Bool)
  | NSS_Initialize (configDir certPrefix keyPrefix secmodName : Option String) (flags : Nat)
  | NSS_Init (configDir : Option String)
  | NSS_InitReadWrite (configDir : Option String)
  | JSS_RegisterDynamicOids
  | PK11_SetPasswordFunc
  | CERT_DisableOCSPChecking
  | CERT_FindCertByNickname (nickname : Option String)
  | PK11_FindCertFromNickname (nickname : Option String)
  | CERT_DestroyCertificate
  | CERT_SetOCSPDefaultResponder (url nickname : Option String)
  | CERT_EnableOCSPDefaultResponder
  | CERT_DisableOCSPDefaultResponder
  | CERT_EnableOCSPChecking
  | NSS_SetDomesticPolicy
  | CERT_SetUsePKIXForValidation (enable : Bool)
  | NewGlobalRef (obj : JObject)
  | DeleteGlobalRef (ref : GlobalRef)
  | AttachCurrentThread
  | NewStringUTF (s : String)
  | FindClass (name : String)
  | GetMethodID (cls : String) (method : String)
  | NewObject (cls : String) (arg : String)
  | CallObjectMethod (obj : JObject) (method : String) (tokenName : String)
  | Password_getByteCopy (callback : JObject)
  | Password_clear (callback : JObject)
  | GetByteArrayElements
  | PL_strdup
  | JSS_wipeCharArray
  | JSS_DerefByteArray (content : List Nat)
  | SECMOD_DeleteInternalModule (name : Option String)
  | SECMOD_GetReadLock
  | SECMOD_ReleaseReadLock
  | SECMOD_ReferenceModule (module : Nat)
  | SECMOD_DestroyModule (module : Nat)
  | JSS_PK11_wrapPK11Module (module : Nat)
  | Vector_addElement (module : Nat)
  deriving DecidableEq

/-- OCSP settings of the default certificate database, as the `CERT_*OCSP*`
calls of `ConfigureOCSP` leave them. -/
structure OCSPState where
  checking : Bool := false
  useDefaultResponder : Bool := false
  defaultResponderURL : Option String := none
  defaultResponderNickname : Option String := none
  deriving DecidableEq

/-- A PKCS #11 module of the default module list, as far as
`CryptoManager.c` touches it: its name and its reference count.  A pointer to
a module of the list is the position of the module in the list. -/
structure SECMODModule where
  commonName : String
  refCount : Nat
  deriving DecidableEq

/-- A Java `PK11Module`: it owns one reference to the module it points to. -/
structure PK11Module where
  ptr : Nat
  deriving DecidableEq

/-- Process-wide state seen by `CryptoManager.c`. -/
structure World where
  /-- The function-static `initialized` of `initializeAllNative2`. -/
  initialized : Bool := false
  /-- Whether `JSS_javaVM` holds a JavaVM pointer (`false` is `NULL`). -/
  JSS_javaVM : Bool := false
  /-- The file-static `globalPasswordCallback` (`none` is `NULL`). -/
  globalPasswordCallback : Option GlobalRef := none
  /-- The exception pending in the JNI environment, if any. -/
  pending : Option Throwable := none
  /-- OCSP settings of the certificate database. -/
  ocsp : OCSPState := {}
  /-- Library calls made so far, oldest first. -/
  trace : List Event := []
  /-- JNI global references that are alive. -/
  globalRefs : List GlobalRef := []
  /-- Identity the next global reference gets. -/
  nextRef : Nat := 0
  /-- What `PK11_IsFIPS()` answers. -/
  fips : Bool := false
  /-- The default module list of `SECMOD_GetDefaultModuleList()`. -/
  modules : List SECMODModule := []
  /-- Number of read locks held on the default module list. -/
  readLocks : Nat := 0
  deriving DecidableEq

/-- How a call of a C function ends: it returns a value in a world, or the
process is aborted (a failed `PR_ASSERT` in a `DEBUG` build, or a jump through
an invalid pointer) in the world reached so far. -/
inductive Outcome (α : Type) where
  | returned (val : α) (w : World)
  | aborted (w : World)

/-- What a password callback method does when it is called. -/
inductive CallbackResult where
  /-- The method threw. -/
  | threw (t : Throwable)
  /-- The method returned `null`. -/
  | null
  /-- The method returned a `Password` object. -/
  | password
  deriving DecidableEq

/-- Behaviour of a Java object handed in as password callback, and of the
`Password` it returns.  A JNI lookup that fails returns `NULL` and leaves the
given throwable pending. -/
structure CallbackObj where
  /-- Throwable raised when `GetMethodID` does not find the first-attempt
  method (`none`: the method is found). -/
  GetMethodID_getPWFirst : Option Throwable := none
  /-- Throwable raised when `GetMethodID` does not find the retry method. -/
  GetMethodID_getPWAgain : Option Throwable := none
  /-- Result of the first-attempt method, by token name. -/
  getPasswordFirstAttempt : String → CallbackResult := fun _ => CallbackResult.null
  /-- Result of the retry method, by token name. -/
  getPasswordAgain : String → CallbackResult := fun _ => CallbackResult.null
  /-- `GetObjectClass` of the returned password gives a class. -/
  passwordClassFound : Bool := true
  /-- Throwable raised when `GetMethodID` does not find `Password.getByteCopy`. -/
  GetMethodID_getByteCopy : Option Throwable := none
  /-- Throwable raised when `GetMethodID` does not find `Password.clear`. -/
  GetMethodID_clear : Option Throwable := none
  /-- Throwable raised by `Password.getByteCopy()`, if it throws. -/
  getByteCopyThrows : Option Throwable := none
  /-- Array returned by `Password.getByteCopy()` (`none` is `null`). -/
  byteCopy : Option (List Nat) := some [0]
  /-- Throwable raised by `Password.clear()`, if it throws. -/
  clearThrows : Option Throwable := none

/-- What `JSS_PK11_wrapPK11Module(env, &modp)` does with a module. -/
inductive WrapResult where
  /-- It returns a `PK11Module` that owns the reference, and `modp` is `NULL`. -/
  | wrapped
  /-- It returns `NULL` with the throwable pending.  With `cleared` it has
  released the reference and set `modp` to `NULL`; without, `modp` still holds
  the reference. -/
  | failed (t : Throwable) (cleared : Bool)
  deriving DecidableEq

/-- Answers of the libraries and of the build: everything `CryptoManager.c`
reads but does not decide.  The theorems quantify over every `Env`; the default
of a field is the answer of a library in which every call succeeds and no
certificate is found, and serves the concrete examples only. -/
structure Env where
  /-- The file is compiled with `DEBUG`: `PR_ASSERT` aborts, and
  `getPWFromCallback` uses its `#ifdef DEBUG` exit. -/
  DEBUG : Bool := false
  /-- Whether `ASSERT_OUTOFMEM(env)` (a macro of `jssutil.h`) holds for the
  given pending exception; consulted in `DEBUG` builds only. -/
  ASSERT_OUTOFMEM : Option Throwable → Bool := fun t => t.map Throwable.cls == some ExcClass.OUT_OF_MEMORY_ERROR
  /-- Return code of `GetJavaVM`. -/
  GetJavaVM : Int := 0
  /-- The `NSS_INIT_*` bits of `nss.h`, this one and the nine that follow. -/
  NSS_INIT_READONLY : Nat := 0x1
  NSS_INIT_NOCERTDB : Nat := 0x2
  NSS_INIT_NOMODDB : Nat := 0x4
  NSS_INIT_FORCEOPEN : Nat := 0x8
  NSS_INIT_NOROOTINIT : Nat := 0x10
  NSS_INIT_OPTIMIZESPACE : Nat := 0x20
  NSS_INIT_PK11THREADSAFE : Nat := 0x40
  NSS_INIT_PK11RELOAD : Nat := 0x80
  NSS_INIT_NOPK11FINALIZE : Nat := 0x100
  NSS_INIT_COOPERATE : Nat := 0x3c0
  /-- Status of `NSS_Initialize`, by its arguments. -/
  NSS_Initialize : Option String → Option String → Option String → Option String → Nat → SECStatus :=
    fun _ _ _ _ _ => SECStatus.SECSuccess
  /-- Status of `NSS_Init`, by the configuration directory. -/
  NSS_Init : Option String → SECStatus := fun _ => SECStatus.SECSuccess
  /-- Status of `NSS_InitReadWrite`, by the configuration directory. -/
  NSS_InitReadWrite : Option String → SECStatus := fun _ => SECStatus.SECSuccess
  /-- Status of `JSS_RegisterDynamicOids` (`Algorithm.c`). -/
  JSS_RegisterDynamicOids : SECStatus := SECStatus.SECSuccess
  /-- Whether `CERT_FindCertByNickname` returns a certificate. -/
  CERT_FindCertByNickname : Option String → Bool := fun _ => false
  /-- Whether `PK11_FindCertFromNickname` returns a certificate. -/
  PK11_FindCertFromNickname : Option String → Bool := fun _ => false
  /-- Status of `CERT_SetOCSPDefaultResponder`, by URL and nickname. -/
  CERT_SetOCSPDefaultResponder : Option String → Option String → SECStatus := fun _ _ => SECStatus.SECSuccess
  /-- Status of `NSS_SetDomesticPolicy`. -/
  NSS_SetDomesticPolicy : SECStatus := SECStatus.SECSuccess
  /-- `NewGlobalRef` returns a reference (`false`: it returns `NULL`). -/
  NewGlobalRef : Bool := true
  /-- Return code of `AttachCurrentThread`. -/
  AttachCurrentThread : Int := 0
  /-- Exception raised by `NewStringUTF` when it fails (`none`: it succeeds). -/
  NewStringUTF : String → Option Throwable := fun _ => none
  /-- Exception raised by `FindClass(TOKEN_CBINFO_CLASS_NAME)` when it fails. -/
  FindClass_TokenCallbackInfo : Option Throwable := none
  /-- Exception raised by `GetMethodID` for the descriptor's constructor. -/
  GetMethodID_TokenCallbackInfo : Option Throwable := none
  /-- Exception raised by `NewObject` for the descriptor. -/
  NewObject_TokenCallbackInfo : Option Throwable := none
  /-- Behaviour of the Java objects used as password callbacks. -/
  callback : JObject → CallbackObj := fun _ => {}
  /-- `GetByteArrayElements` returns the elements (`false`: `NULL`). -/
  GetByteArrayElements : Bool := true
  /-- `PL_strdup` returns a copy (`false`: `NULL`). -/
  PL_strdup : Bool := true
  /-- `SECMOD_GetInternalModule()->commonName`. -/
  internalModuleName : String := "NSS Internal PKCS #11 Module"
  /-- Status of `SECMOD_DeleteInternalModule`, by the name it is given. -/
  SECMOD_DeleteInternalModule : Option String → SECStatus := fun _ => SECStatus.SECSuccess
  /-- `GetObjectClass(env, vector)` gives a class (`false`: `NULL`). -/
  vectorClassFound : Bool := true
  /-- Throwable raised when `GetMethodID` does not find `Vector.addElement`. -/
  GetMethodID_addElement : Option Throwable := none
  /-- What `JSS_PK11_wrapPK11Module` does, by the module it is given. -/
  wrap : Nat → WrapResult := fun _ => WrapResult.wrapped

/-- Arguments of `initializeAllNative` and `initializeAllNative2`, in the order
of the C parameter list (`env` and `clazz` apart).  A `jstring` is an
`Option String`; `none` is the `NULL` reference.  The theorems quantify over
every `InitArgs`; the defaults (a plain read-write initialization with PKCS #11
strings of the asserted lengths) serve the concrete examples only. -/
structure InitArgs where
  configDir : Option String := some "."
  certPrefix : Option String := none
  keyPrefix : Option String := none
  secmodName : Option String := none
  readOnly : Bool := false
  manuString : Option String := some "mozilla.org                      "
  libraryString : Option String := some "NSS Internal PKCS #11 Module     "
  tokString : Option String := some "NSS Generic Crypto Services      "
  keyTokString : Option String := some "NSS Certificate DB               "
  slotString : Option String := some "NSS Internal Cryptographic Services                              "
  keySlotString : Option String := some "NSS User Private Key and Certificate Services                    "
  fipsString : Option String := some "NSS FIPS 140-2 Cryptographic Services                            "
  fipsKeyString : Option String := some "NSS FIPS 140-2 User Private Key Services                         "
  ocspCheckingEnabled : Bool := false
  ocspResponderURL : Option String := none
  ocspResponderCertNickname : Option String := none
  initializeJavaOnly : Bool := false
  PKIXVerify : Bool := false
  noCertDB : Bool := false
  noModDB : Bool := false
  forceOpen : Bool := false
  noRootInit : Bool := false
  optimizeSpace : Bool := false
  PK11ThreadSafe : Bool := false
  PK11Reload : Bool := false
  noPK11Finalize : Bool := false
  cooperate : Bool := false

/-! ## Helpers of `jssutil` and of the libraries -/

/-- Append a library call to the trace. -/
def World.emit (w : World) (e : Event) : World :=
  { w with trace := w.trace ++ [e] }

/-- A JNI call or Java method fails: the JVM leaves the throwable pending. -/
def World.raise (w : World) (t : Throwable) : World :=
  { w with pending := some t }

/-- JNI `ExceptionClear(env)`. -/
def World.ExceptionClear (w : World) : World :=
  { w with pending := none }

/-- Modelled from the spec: `JSS_throw` is defined in `jssutil.c`, outside
`src/`.  The spec has a failing operation surface one error, so the helper
leaves a throwable of the named class pending. -/
def JSS_throw (cls : ExcClass) (w : World) : World :=
  { w with pending := some { cls := cls } }

/-- Modelled from the spec: `JSS_throwMsg`, `JSS_throwMsgPrErr` and
`JSS_throwMsgPortErr` are defined in `jssutil.c`, outside `src/`.  They leave a
throwable of the named class with the given message pending (the text of the
native error code that the last two append is not modelled). -/
def JSS_throwMsg (cls : ExcClass) (msg : String) (w : World) : World :=
  { w with pending := some { cls := cls, msg := some msg } }

/-- Modelled from the spec: `JSS_RefJString` is defined in `jssutil.c`, outside
`src/`.  The spec treats every string parameter as an optional string value:
the characters of a non-null string are the string, and the `NULL` reference
gives the `NULL` pointer. -/
def JSS_RefJString (s : Option String) : Option String := s

/-- `strlen` of a C string: its length in bytes (`NULL` never reaches it). -/
def strlen (s : Option String) : Nat :=
  match s with
  | none => 0
  | some v => v.utf8ByteSize

/-! ## `ConfigureOCSP` (lines 106–190) -/

/-- `CERT_DisableOCSPChecking(certdb)`: revocation checking is off afterwards. -/
def CERT_DisableOCSPChecking (w : World) : World :=
  { w.emit Event.CERT_DisableOCSPChecking with ocsp := { w.ocsp with checking := false } }

/-- `CERT_EnableOCSPChecking(certdb)`: revocation checking is on afterwards. -/
def CERT_EnableOCSPChecking (w : World) : World :=
  { w.emit Event.CERT_EnableOCSPChecking with ocsp := { w.ocsp with checking := true } }

/-- `CERT_EnableOCSPDefaultResponder(certdb)`. -/
def CERT_EnableOCSPDefaultResponder (w : World) : World :=
  { w.emit Event.CERT_EnableOCSPDefaultResponder with ocsp := { w.ocsp with useDefaultResponder := true } }

/-- `CERT_DisableOCSPDefaultResponder(certdb)`. -/
def CERT_DisableOCSPDefaultResponder (w : World) : World :=
  { w.emit Event.CERT_DisableOCSPDefaultResponder with ocsp := { w.ocsp with useDefaultResponder := false } }

/-- `CERT_FindCertByNickname(certdb, nickname)`: whether a certificate came
back, and the world with the lookup recorded. -/
def CERT_FindCertByNickname (E : Env) (nickname : Option String) (w : World) : Bool × World :=
  (E.CERT_FindCertByNickname nickname, w.emit (Event.CERT_FindCertByNickname nickname))

/-- `PK11_FindCertFromNickname(nickname, NULL)`: the lookup among the
certificates on the tokens. -/
def PK11_FindCertFromNickname (E : Env) (nickname : Option String) (w : World) : Bool × World :=
  (E.PK11_FindCertFromNickname nickname, w.emit (Event.PK11_FindCertFromNickname nickname))

/-- `CERT_SetOCSPDefaultResponder(certdb, url, nickname)`: on success the
default responder is the given one. -/
def CERT_SetOCSPDefaultResponder (E : Env) (url nickname : Option String) (w : World) :
    SECStatus × World :=
  let w := w.emit (Event.CERT_SetOCSPDefaultResponder url nickname)
  match E.CERT_SetOCSPDefaultResponder url nickname with
  | SECStatus.SECSuccess =>
    (SECStatus.SECSuccess,
      { w with ocsp := { w.ocsp with defaultResponderURL := url, defaultResponderNickname := nickname } })
  | SECStatus.SECFailure => (SECStatus.SECFailure, w)

/-- Lines 133–175 of `ConfigureOCSP`: the default responder.  `Except.error`
is `goto finish` with `result = SECFailure`. -/
def configureResponder (E : Env) (ocspResponderURL ocspResponderCertNickname : Option String)
    (ocspResponderURL_string ocspResponderCertNickname_string : Option String) (w : World) :
    Except World World :=
  if ocspResponderURL_string.isSome then
    if ocspResponderCertNickname = none then
      Except.error (JSS_throwMsg ExcClass.GENERAL_SECURITY_EXCEPTION
        "if OCSP responderURL is set, the Responder Cert nickname must be set" w)
    else
      let r1 := CERT_FindCertByNickname E ocspResponderCertNickname_string w
      -- look for the cert on an external token
      let r2 := if r1.1 = false then PK11_FindCertFromNickname E ocspResponderCertNickname_string r1.2 else r1
      if r2.1 = false then
        Except.error (JSS_throwMsg ExcClass.GENERAL_SECURITY_EXCEPTION
          "Unable to find the OCSP Responder Certificate nickname." r2.2)
      else
        let w := r2.2.emit Event.CERT_DestroyCertificate
        let r3 := CERT_SetOCSPDefaultResponder E ocspResponderURL_string ocspResponderCertNickname_string w
        if r3.1 = SECStatus.SECFailure then
          Except.error (JSS_throwMsg ExcClass.GENERAL_SECURITY_EXCEPTION "OCSP Could not set responder" r3.2)
        else
          Except.ok (CERT_EnableOCSPDefaultResponder r3.2)
  else if ocspResponderURL = none then
    -- if no defaultresponder is set, disable it
    Except.ok (CERT_DisableOCSPDefaultResponder w)
  else
    Except.ok w

/-- `ConfigureOCSP` (lines 106–190).  The two `JSS_DerefJString` calls at
`finish` release the characters and change nothing that is modelled. -/
def ConfigureOCSP (E : Env) (ocspCheckingEnabled : Bool)
    (ocspResponderURL ocspResponderCertNickname : Option String) (w : World) : SECStatus × World :=
  let ocspResponderURL_string := JSS_RefJString ocspResponderURL
  let ocspResponderCertNickname_string := JSS_RefJString ocspResponderCertNickname
  -- first disable OCSP - we'll enable it later
  let w := CERT_DisableOCSPChecking w
  match configureResponder E ocspResponderURL ocspResponderCertNickname
      ocspResponderURL_string ocspResponderCertNickname_string w with
  | Except.error w => (SECStatus.SECFailure, w)
  | Except.ok w =>
    -- enable OCSP checking if requested
    let w := if ocspCheckingEnabled then CERT_EnableOCSPChecking w else w
    (SECStatus.SECSuccess, w)

/-- `configureOCSPNative` (lines 958–975). -/
def configureOCSPNative (E : Env) (ocspCheckingEnabled : Bool)
    (ocspResponderURL ocspResponderCertNickname : Option String) (w : World) : World :=
  let r := ConfigureOCSP E ocspCheckingEnabled ocspResponderURL ocspResponderCertNickname w
  if r.1 ≠ SECStatus.SECSuccess then
    JSS_throwMsg ExcClass.GENERAL_SECURITY_EXCEPTION "Failed to configure OCSP" r.2
  else r.2

/-! ## `initializeAllNative2` (lines 269–518) -/

/-- Lines 318–326: one of the nine required strings is `NULL`. -/
def requiredStringMissing (a : InitArgs) : Bool :=
  a.configDir.isNone || a.manuString.isNone || a.libraryString.isNone || a.tokString.isNone ||
  a.keyTokString.isNone || a.slotString.isNone || a.keySlotString.isNone ||
  a.fipsString.isNone || a.fipsKeyString.isNone

/-- Lines 379–386: the conjunction of the eight `PR_ASSERT`ed lengths. -/
def pkcs11LengthsOK (a : InitArgs) : Bool :=
  strlen (JSS_RefJString a.manuString) == 33 &&
  strlen (JSS_RefJString a.libraryString) == 33 &&
  strlen (JSS_RefJString a.tokString) == 33 &&
  strlen (JSS_RefJString a.keyTokString) == 33 &&
  strlen (JSS_RefJString a.slotString) == 65 &&
  strlen (JSS_RefJString a.keySlotString) == 65 &&
  strlen (JSS_RefJString a.fipsString) == 65 &&
  strlen (JSS_RefJString a.fipsKeyString) == 65

/-- Line 401–404: the condition that selects `NSS_Initialize`. -/
def extendedInit (a : InitArgs) : Bool :=
  a.certPrefix.isSome || a.keyPrefix.isSome || a.secmodName.isSome ||
  a.noCertDB || a.noModDB || a.forceOpen || a.noRootInit ||
  a.optimizeSpace || a.PK11ThreadSafe || a.PK11Reload ||
  a.noPK11Finalize || a.cooperate

/-- Lines 412–442: `initFlags`, a `PRUint32`. -/
def initFlags (E : Env) (a : InitArgs) : Nat :=
  let f := 0
  let f := if a.readOnly then f ||| E.NSS_INIT_READONLY else f
  let f := if a.noCertDB then f ||| E.NSS_INIT_NOCERTDB else f
  let f := if a.noModDB then f ||| E.NSS_INIT_NOMODDB else f
  let f := if a.forceOpen then f ||| E.NSS_INIT_FORCEOPEN else f
  let f := if a.noRootInit then f ||| E.NSS_INIT_NOROOTINIT else f
  let f := if a.optimizeSpace then f ||| E.NSS_INIT_OPTIMIZESPACE else f
  let f := if a.PK11ThreadSafe then f ||| E.NSS_INIT_PK11THREADSAFE else f
  let f := if a.PK11Reload then f ||| E.NSS_INIT_PK11RELOAD else f
  let f := if a.noPK11Finalize then f ||| E.NSS_INIT_NOPK11FINALIZE else f
  let f := if a.cooperate then f ||| E.NSS_INIT_COOPERATE else f
  f % 2 ^ 32

/-- Lines 400–455: the native init entry point that is called, and its
status `rv`. -/
def nativeInit (E : Env) (a : InitArgs) (w : World) : SECStatus × World :=
  let szConfigDir := JSS_RefJString a.configDir
  if extendedInit a then
    let szCertPrefix := JSS_RefJString a.certPrefix
    let szKeyPrefix := JSS_RefJString a.keyPrefix
    let szSecmodName := JSS_RefJString a.secmodName
    (E.NSS_Initialize szConfigDir szCertPrefix szKeyPrefix szSecmodName (initFlags E a),
      w.emit (Event.NSS_Initialize szConfigDir szCertPrefix szKeyPrefix szSecmodName (initFlags E a)))
  else if a.readOnly then
    (E.NSS_Init szConfigDir, w.emit (Event.NSS_Init szConfigDir))
  else
    (E.NSS_InitReadWrite szConfigDir, w.emit (Event.NSS_InitReadWrite szConfigDir))

/-- Lines 457–501: what follows the native init call. -/
def afterNativeInit (E : Env) (a : InitArgs) (rv : SECStatus) (w : World) : World :=
  if rv ≠ SECStatus.SECSuccess then
    JSS_throwMsg ExcClass.SECURITY_EXCEPTION "Unable to initialize security library" w
  else
    -- Register additional OIDs, see Algorithm.c
    let w := w.emit Event.JSS_RegisterDynamicOids
    if E.JSS_RegisterDynamicOids ≠ SECStatus.SECSuccess then
      JSS_throwMsg ExcClass.SECURITY_EXCEPTION "Unable to ad dynamic oids" w
    else
      -- Set default password callback
      let w := w.emit Event.PK11_SetPasswordFunc
      -- Setup NSS to call the specified OCSP responder
      let r := ConfigureOCSP E a.ocspCheckingEnabled a.ocspResponderURL a.ocspResponderCertNickname w
      if r.1 ≠ SECStatus.SECSuccess then
        r.2
      else
        -- Set up policy
        let w := r.2.emit Event.NSS_SetDomesticPolicy
        if E.NSS_SetDomesticPolicy ≠ SECStatus.SECSuccess then
          JSS_throwMsg ExcClass.SECURITY_EXCEPTION "Unable to set security policy" w
        else
          let w := if a.PKIXVerify then w.emit (Event.CERT_SetUsePKIXForValidation true) else w
          { w with initialized := true }

/-- `Java_org_mozilla_jss_CryptoManager_initializeAllNative2` (lines 269–518).
The twelve `JSS_DerefJString` calls at `finish` release the characters and
change nothing that is modelled. -/
def initializeAllNative2 (E : Env) (a : InitArgs) (w : World) : Outcome Unit :=
  if requiredStringMissing a then
    Outcome.returned () (JSS_throw ExcClass.NULL_POINTER_EXCEPTION w)
  -- Make sure initialize() completes only once
  else if w.initialized then
    Outcome.returned () (JSS_throw ExcClass.ALREADY_INITIALIZED_EXCEPTION w)
  else
    -- Save the JavaVM pointer
    let w := w.emit Event.GetJavaVM
    if E.GetJavaVM ≠ 0 then
      -- PR_ASSERT(PR_FALSE)
      if E.DEBUG then Outcome.aborted w else Outcome.returned () w
    else
      let w := { w with JSS_javaVM := true }
      -- Initialize the errcode translation table
      let w := w.emit Event.JSS_initErrcodeTranslationTable
      -- the NSS stuff is skipped if the initializeJavaOnly flag is set
      if a.initializeJavaOnly then
        Outcome.returned () { w with initialized := true }
      else
        -- Set the PKCS #11 strings
        let manuChars := JSS_RefJString a.manuString
        let libraryChars := JSS_RefJString a.libraryString
        let tokChars := JSS_RefJString a.tokString
        let keyTokChars := JSS_RefJString a.keyTokString
        let slotChars := JSS_RefJString a.slotString
        let keySlotChars := JSS_RefJString a.keySlotString
        let fipsChars := JSS_RefJString a.fipsString
        let fipsKeyChars := JSS_RefJString a.fipsKeyString
        if w.pending.isSome then
          -- ASSERT_OUTOFMEM(env)
          if E.DEBUG && !E.ASSERT_OUTOFMEM w.pending then Outcome.aborted w else Outcome.returned () w
        else if E.DEBUG && !pkcs11LengthsOK a then
          -- one of the eight PR_ASSERT( strlen(..) == .. ) fails
          Outcome.aborted w
        else
          let w := w.emit (Event.PK11_ConfigurePKCS11 manuChars libraryChars tokChars keyTokChars
            slotChars keySlotChars fipsChars fipsKeyChars 0 false)
          let r := nativeInit E a w
          Outcome.returned () (afterNativeInit E a r.1 r.2)

/-- `Java_org_mozilla_jss_CryptoManager_initializeAllNative` (lines 205–266):
the call of `initializeAllNative2` with the arguments in the order of lines
239–265, `JNI_FALSE` standing where `initializeJavaOnly` is expected. -/
def initializeAllNative (E : Env) (a : InitArgs) (w : World) : Outcome Unit :=
  initializeAllNative2 E
    { configDir := a.configDir,
      certPrefix := a.certPrefix,
      keyPrefix := a.keyPrefix,
      secmodName := a.secmodName,
      readOnly := a.readOnly,
      manuString := a.manuString,
      libraryString := a.libraryString,
      tokString := a.tokString,
      keyTokString := a.keyTokString,
      slotString := a.slotString,
      keySlotString := a.keySlotString,
      fipsString := a.fipsString,
      fipsKeyString := a.fipsKeyString,
      ocspCheckingEnabled := a.ocspCheckingEnabled,
      ocspResponderURL := a.ocspResponderURL,
      ocspResponderCertNickname := a.ocspResponderCertNickname,
      initializeJavaOnly := false,
      PKIXVerify := a.PKIXVerify,
      noCertDB := a.noCertDB,
      noModDB := a.noModDB,
      forceOpen := a.forceOpen,
      noRootInit := a.noRootInit,
      optimizeSpace := a.optimizeSpace,
      PK11ThreadSafe := a.PK11ThreadSafe,
      PK11Reload := a.PK11Reload,
      noPK11Finalize := a.noPK11Finalize,
      cooperate := a.cooperate }
    w

/-! ## The default password callback (lines 193–197, 520–561) -/

/-- JNI `NewGlobalRef(env, obj)`: a fresh global reference to `obj`, or `NULL`
when the JVM has no memory for one. -/
def NewGlobalRef (E : Env) (obj : JObject) (w : World) : Option GlobalRef × World :=
  let w := w.emit (Event.NewGlobalRef obj)
  if E.NewGlobalRef then
    let ref : GlobalRef := { id := w.nextRef, obj := obj }
    (some ref, { w with globalRefs := ref :: w.globalRefs, nextRef := w.nextRef + 1 })
  else
    (none, w)

/-- JNI `DeleteGlobalRef(env, ref)`. -/
def DeleteGlobalRef (ref : GlobalRef) (w : World) : World :=
  { w.emit (Event.DeleteGlobalRef ref) with globalRefs := w.globalRefs.erase ref }

/-- `JSS_setPasswordCallback` (lines 528–546).  `PR_ASSERT(env != NULL)` holds
for every JNI caller. -/
def JSS_setPasswordCallback (E : Env) (callback : Option JObject) (w : World) : World :=
  -- Free the previously-registered password callback
  let w := match w.globalPasswordCallback with
    | some old => { DeleteGlobalRef old w with globalPasswordCallback := none }
    | none => w
  match callback with
  | some cb =>
    -- Store the new password callback
    let r := NewGlobalRef E cb w
    let w := { r.2 with globalPasswordCallback := r.1 }
    if r.1.isNone then JSS_throw ExcClass.OUT_OF_MEMORY_ERROR w else w
  | none => w

/-- `Java_org_mozilla_jss_CryptoManager_setNativePasswordCallback`
(lines 556–561). -/
def setNativePasswordCallback (E : Env) (callback : Option JObject) (w : World) : World :=
  JSS_setPasswordCallback E callback w

/-! ## `makePWCBInfo` and `getPWFromCallback` (lines 563–812) -/

/-- A PKCS #11 slot, as far as the callback needs it: the name of its token. -/
structure Slot where
  tokenName : String
  deriving DecidableEq

/-- A failed JNI lookup inside `makePWCBInfo`: the throwable is pending,
`ASSERT_OUTOFMEM(env)` is checked and `NULL` is returned. -/
def jniFailure (E : Env) (t : Throwable) (w : World) : Outcome (Option String) :=
  let w := w.raise t
  if E.DEBUG && !E.ASSERT_OUTOFMEM w.pending then Outcome.aborted w else Outcome.returned none w

/-- `makePWCBInfo` (lines 761–812): the `TokenCallbackInfo` for a slot, given
by the token name it carries, or `NULL` with an exception pending. -/
def makePWCBInfo (E : Env) (slot : Slot) (w : World) : Outcome (Option String) :=
  -- Turn the token name into a Java String
  let w := w.emit (Event.NewStringUTF slot.tokenName)
  match E.NewStringUTF slot.tokenName with
  | some t => jniFailure E t w
  | none =>
    -- Look up the class and constructor
    let w := w.emit (Event.FindClass "TOKEN_CBINFO_CLASS_NAME")
    match E.FindClass_TokenCallbackInfo with
    | some t => jniFailure E t w
    | none =>
      let w := w.emit (Event.GetMethodID "TOKEN_CBINFO_CLASS_NAME" "TOKEN_CBINFO_CONSTRUCTOR_NAME")
      match E.GetMethodID_TokenCallbackInfo with
      | some t => jniFailure E t w
      | none =>
        -- Create the CallbackInfo object
        let w := w.emit (Event.NewObject "TOKEN_CBINFO_CLASS_NAME" slot.tokenName)
        match E.NewObject_TokenCallbackInfo with
        | some t => jniFailure E t w
        | none => Outcome.returned (some slot.tokenName) w

/-- The label `finish` of `getPWFromCallback` (lines 726–751). -/
def pwFinish (E : Env) (returnchars : Option (List Nat)) (w : World) : Outcome (Option (List Nat)) :=
  if E.DEBUG then
    match w.pending with
    | some exception =>
      let w := w.ExceptionClear
      if exception.cls ≠ ExcClass.GIVE_UP_EXCEPTION then
        -- printStackTrace, then PR_ASSERT( PR_FALSE )
        Outcome.aborted w
      else if returnchars.isSome then
        -- PR_ASSERT(returnchars==NULL)
        Outcome.aborted w
      else Outcome.returned returnchars w
    | none => Outcome.returned returnchars w
  else
    Outcome.returned returnchars w.ExceptionClear

/-- The characters of a C string held in a buffer: the bytes before the first
NUL. -/
def cString (buf : List Nat) : List Nat :=
  buf.takeWhile (fun b => b != 0)

/-- Modelled from the spec: `JSS_wipeCharArray` is defined in `jssutil.c`,
outside `src/`.  The spec has the secret buffer zeroed after the copy; for a
C string that is every byte of its characters, the rest of the buffer is left
as it is. -/
def JSS_wipeCharArray (buf : List Nat) : List Nat :=
  List.replicate (cString buf).length 0 ++ buf.drop (cString buf).length

/-- Lines 685–724: the accessors of the `Password`, the byte copy, `clear`,
and the duplicate that is handed to PKCS #11. -/
def extractPassword (E : Env) (callback : JObject) (w : World) : Outcome (Option (List Nat)) :=
  let cb := E.callback callback
  let w := w.emit (Event.GetMethodID "PASSWORD_CLASS" "PW_GET_BYTE_COPY_NAME")
  let w := match cb.GetMethodID_getByteCopy with
    | some t => w.raise t
    | none => w
  let w := w.emit (Event.GetMethodID "PASSWORD_CLASS" "PW_CLEAR_NAME")
  let w := match cb.GetMethodID_clear with
    | some t => w.raise t
    | none => w
  if cb.GetMethodID_getByteCopy.isSome || cb.GetMethodID_clear.isSome then
    -- ASSERT_OUTOFMEM(env)
    if E.DEBUG && !E.ASSERT_OUTOFMEM w.pending then Outcome.aborted w else pwFinish E none w
  else
    -- Get the bytes from the password, then clear it
    let w := w.emit (Event.Password_getByteCopy callback)
    let w := match cb.getByteCopyThrows with
      | some t => w.raise t
      | none => w
    let pwArray := if cb.getByteCopyThrows.isSome then none else cb.byteCopy
    let w := w.emit (Event.Password_clear callback)
    let w := match cb.clearThrows with
      | some t => w.raise t
      | none => w
    if w.pending.isNone then
      match pwArray with
      | none =>
        -- PR_ASSERT(pwArray != NULL); without it GetByteArrayElements is handed NULL
        Outcome.aborted w
      | some bytes =>
        -- Copy the characters out of the byte array, then erase it
        let w := w.emit Event.GetByteArrayElements
        if E.GetByteArrayElements then
          let w := w.emit Event.PL_strdup
          let returnchars := if E.PL_strdup then some (cString bytes) else none
          let w := w.emit Event.JSS_wipeCharArray
          let w := w.emit (Event.JSS_DerefByteArray (JSS_wipeCharArray bytes))
          pwFinish E returnchars w
        else
          if E.DEBUG then
            -- PR_ASSERT(pwchars!=NULL)
            Outcome.aborted w
          else
            -- PL_strdup(NULL) duplicates the empty string
            let w := w.emit Event.PL_strdup
            let returnchars := if E.PL_strdup then some [] else none
            pwFinish E returnchars w
    else
      pwFinish E none w

/-- Lines 631–724 of `getPWFromCallback`: look the callback method up, call
it with the `TokenCallbackInfo`, and take the password out of what it returns.
`GetObjectClass` of the callback, a live object, gives its class, so the
assertion at line 638 holds. -/
def callPasswordCallback (E : Env) (callback : JObject) (retry : Bool) (pwcbInfo : String)
    (w : World) : Outcome (Option (List Nat)) :=
  -- Get the callback class and methods
  let cb := E.callback callback
  let name := if retry then "PW_CALLBACK_GET_PW_AGAIN_NAME" else "PW_CALLBACK_GET_PW_FIRST_NAME"
  let w := w.emit (Event.GetMethodID "PW_CALLBACK_CLASS" name)
  match (if retry then cb.GetMethodID_getPWAgain else cb.GetMethodID_getPWFirst) with
  | some t =>
    let w := w.raise t
    -- ASSERT_OUTOFMEM(env)
    if E.DEBUG && !E.ASSERT_OUTOFMEM w.pending then Outcome.aborted w else pwFinish E none w
  | none =>
    -- Get the password from the callback
    let w := w.emit (Event.CallObjectMethod callback name pwcbInfo)
    let pwObject := if retry then cb.getPasswordAgain pwcbInfo else cb.getPasswordFirstAttempt pwcbInfo
    let w := match pwObject with
      | CallbackResult.threw t => w.raise t
      | _ => w
    if w.pending.isSome then
      pwFinish E none w
    else if pwObject ≠ CallbackResult.password then
      pwFinish E none (JSS_throw ExcClass.GIVE_UP_EXCEPTION w)
    else if !cb.passwordClassFound then
      -- ASSERT_OUTOFMEM(env)
      if E.DEBUG && !E.ASSERT_OUTOFMEM w.pending then Outcome.aborted w else pwFinish E none w
    else
      extractPassword E callback w

/-- `getPWFromCallback` (lines 583–752).  `slot` and `arg` are pointers
(`none` is `NULL`); the result is `returnchars`. -/
def getPWFromCallback (E : Env) (slot : Option Slot) (retry : Bool) (arg : Option JObject)
    (w : World) : Outcome (Option (List Nat)) :=
  match slot with
  | none =>
    -- PR_ASSERT(slot!=NULL); if(slot==NULL) return NULL
    if E.DEBUG then Outcome.aborted w else Outcome.returned none w
  | some slot =>
    -- Get the callback from the arg, or use the default
    let callback := match arg with
      | some cb => some cb
      | none => w.globalPasswordCallback.map GlobalRef.obj
    match callback with
    | none =>
      -- No global password callback set, no way to get a password
      Outcome.returned none w
    | some callback =>
      -- Get the JNI environment
      if !w.JSS_javaVM then
        -- (*JSS_javaVM) with JSS_javaVM == NULL
        Outcome.aborted w
      else
        let w := w.emit Event.AttachCurrentThread
        if E.AttachCurrentThread ≠ 0 then
          -- PR_ASSERT(PR_FALSE); without it `finish` goes through `env`, which was never set
          Outcome.aborted w
        else
          -- Construct the JSS_PasswordCallbackInfo
          match makePWCBInfo E slot w with
          | Outcome.aborted w => Outcome.aborted w
          | Outcome.returned none w => pwFinish E none w
          | Outcome.returned (some pwcbInfo) w => callPasswordCallback E callback retry pwcbInfo w

/-! ## `putModulesInVector` (lines 814–882) -/

/-- Apply `f` to the module at position `i` of a module list. -/
def adjustModule (f : SECMODModule → SECMODModule) : Nat → List SECMODModule → List SECMODModule
  | _, [] => []
  | 0, m :: ms => f m :: ms
  | i + 1, m :: ms => m :: adjustModule f i ms

/-- One reference more on a module. -/
def SECMODModule.ref (m : SECMODModule) : SECMODModule :=
  { m with refCount := m.refCount + 1 }

/-- One reference less on a module. -/
def SECMODModule.unref (m : SECMODModule) : SECMODModule :=
  { m with refCount := m.refCount - 1 }

/-- `SECMOD_GetReadLock(listLock)`. -/
def SECMOD_GetReadLock (w : World) : World :=
  { w.emit Event.SECMOD_GetReadLock with readLocks := w.readLocks + 1 }

/-- `SECMOD_ReleaseReadLock(listLock)`. -/
def SECMOD_ReleaseReadLock (w : World) : World :=
  { w.emit Event.SECMOD_ReleaseReadLock with readLocks := w.readLocks - 1 }

/-- `SECMOD_ReferenceModule(module)`: the reference count of the module goes
up by one. -/
def SECMOD_ReferenceModule (i : Nat) (w : World) : World :=
  { w.emit (Event.SECMOD_ReferenceModule i) with modules := adjustModule SECMODModule.ref i w.modules }

/-- `SECMOD_DestroyModule(module)`: the reference count of the module goes
down by one (a module of the list keeps the reference of the list). -/
def SECMOD_DestroyModule (i : Nat) (w : World) : World :=
  { w.emit (Event.SECMOD_DestroyModule i) with modules := adjustModule SECMODModule.unref i w.modules }

/-- Modelled from the spec: `JSS_PK11_wrapPK11Module` is defined in `pk11util`,
outside `src/`.  The spec has the wrapped handle own the reference that was
taken for it, and an already-incremented-but-unwrapped reference released.
The result is the `PK11Module` (`none` is `NULL`), what `modp` points to after
the call, and the world: on success `modp` is `NULL`; on failure the throwable
is pending and either the reference was released and `modp` is `NULL`, or
`modp` still holds it. -/
def JSS_PK11_wrapPK11Module (E : Env) (i : Nat) (w : World) :
    Option PK11Module × Option Nat × World :=
  let w := w.emit (Event.JSS_PK11_wrapPK11Module i)
  match E.wrap i with
  | WrapResult.wrapped => (some { ptr := i }, none, w)
  | WrapResult.failed t true => (none, none, SECMOD_DestroyModule i (w.raise t))
  | WrapResult.failed t false => (none, some i, w.raise t)

/-- The loop of lines 856–869 from the list entry at position `i` on, with
`remaining` entries to go.  The result is the vector and `modp` as the loop
leaves them, at its end or at `goto finish`.  `Vector.addElement` appends the
element; the C code does not look at what it does. -/
def putModulesLoop (E : Env) : Nat → Nat → List PK11Module → World →
    Outcome (List PK11Module × Option Nat)
  | _, 0, vector, w => Outcome.returned (vector, none) w
  | i, remaining + 1, vector, w =>
    -- Make a PK11Module
    let w := SECMOD_ReferenceModule i w
    let r := JSS_PK11_wrapPK11Module E i w
    if E.DEBUG && r.2.1.isSome then
      -- PR_ASSERT(modp==NULL)
      Outcome.aborted r.2.2
    else
      match r.1 with
      | none => Outcome.returned (vector, r.2.1) r.2.2
      | some module =>
        -- Stick the PK11Module in the Vector
        putModulesLoop E (i + 1) remaining (vector ++ [module])
          (r.2.2.emit (Event.Vector_addElement i))

/-- `Java_org_mozilla_jss_CryptoManager_putModulesInVector` (lines 820–882).
`vector` is what the Java `Vector` holds on entry, the result what it holds
afterwards.  The assertions of lines 831, 849 and 857 hold: the arguments, the
lock of the module list and the modules on the list are not `NULL`. -/
def putModulesInVector (E : Env) (vector : List PK11Module) (w : World) :
    Outcome (List PK11Module) :=
  -- Get JNI ids
  if !E.vectorClassFound then
    Outcome.returned vector w
  else
    let w := w.emit (Event.GetMethodID "VECTOR_CLASS" "VECTOR_ADD_ELEMENT_NAME")
    match E.GetMethodID_addElement with
    | some t => Outcome.returned vector (w.raise t)
    | none =>
      -- Lock the list
      let w := SECMOD_GetReadLock w
      -- Loop over the modules, adding each one to the vector
      match putModulesLoop E 0 w.modules.length vector w with
      | Outcome.aborted w => Outcome.aborted w
      | Outcome.returned r w =>
        -- Unlock the list
        let w := SECMOD_ReleaseReadLock w
        -- Free this module if it wasn't properly Java-ized
        let w := match r.2 with
          | some modp => SECMOD_DestroyModule modp w
          | none => w
        Outcome.returned r.1 w

/-- Modelled from the spec: a `PK11Module` is released in `pk11util`, outside
`src/`.  The spec has the resource released when the last reference is
dropped, the wrapper holding one: releasing a handle is
`SECMOD_DestroyModule` on its module. -/
def releaseHandle (w : World) (h : PK11Module) : World :=
  SECMOD_DestroyModule h.ptr w

/-! ## `enableFIPS` and `FIPSEnabled` (lines 885–938) -/

/-- `SECMOD_DeleteInternalModule(name)`: on success the internal module is
replaced by its counterpart, which turns FIPS mode from off to on or from on
to off; on failure the mode stays. -/
def SECMOD_DeleteInternalModule (E : Env) (name : Option String) (w : World) : SECStatus × World :=
  let w := w.emit (Event.SECMOD_DeleteInternalModule name)
  match E.SECMOD_DeleteInternalModule name with
  | SECStatus.SECSuccess => (SECStatus.SECSuccess, { w with fips := !w.fips })
  | SECStatus.SECFailure => (SECStatus.SECFailure, w)

/-- `Java_org_mozilla_jss_CryptoManager_enableFIPS` (lines 899–923).  The
result is `switched`. -/
def enableFIPS (E : Env) (fips : Bool) (w : World) : Bool × World :=
  if (fips = true ∧ w.fips = false) ∨ (fips = false ∧ w.fips = true) then
    let name := if E.PL_strdup then some E.internalModuleName else none
    let r := SECMOD_DeleteInternalModule E name w
    if r.1 ≠ SECStatus.SECSuccess then
      (true, JSS_throwMsg ExcClass.GENERAL_SECURITY_EXCEPTION "Failed to toggle FIPS mode" r.2)
    else
      (true, r.2)
  else
    (false, w)

/-- `Java_org_mozilla_jss_CryptoManager_FIPSEnabled` (lines 930–938). -/
def FIPSEnabled (w : World) : Bool :=
  if w.fips then true else false

/-! ## Observations on a call: where it ended, the calls it added, its steps -/

/-- The world in which a call ended. -/
def Outcome.world {α : Type} : Outcome α → World
  | Outcome.returned _ w => w
  | Outcome.aborted w => w

/-- The events a call added to the trace of the world it started in. -/
def newEvents (before after : World) : List Event :=
  after.trace.drop before.trace.length

/-- A call of one of the three native init entry points. -/
def Event.isNativeInit : Event → Bool
  | Event.NSS_Initialize _ _ _ _ _ => true
  | Event.NSS_Init _ => true
  | Event.NSS_InitReadWrite _ => true
  | _ => false

/-- Arguments with a manufacturer string of five bytes instead of 33. -/
def shortManuArgs : InitArgs := { manuString := some "short" }

/-- The world a full initialization with the default arguments and library
answers leaves behind when it starts from the initial world. -/
def initializedWorld : World := (initializeAllNative2 {} {} {}).world

/-- A call made by `ConfigureOCSP`. -/
def Event.isOCSP : Event → Bool
  | Event.CERT_DisableOCSPChecking => true
  | Event.CERT_FindCertByNickname _ => true
  | Event.PK11_FindCertFromNickname _ => true
  | Event.CERT_DestroyCertificate => true
  | Event.CERT_SetOCSPDefaultResponder _ _ => true
  | Event.CERT_EnableOCSPDefaultResponder => true
  | Event.CERT_DisableOCSPDefaultResponder => true
  | Event.CERT_EnableOCSPChecking => true
  | _ => false

/-- The status the library answers to a native init call. -/
def Env.nativeInitStatus (E : Env) : Event → SECStatus
  | Event.NSS_Initialize d c k s f => E.NSS_Initialize d c k s f
  | Event.NSS_Init d => E.NSS_Init d
  | Event.NSS_InitReadWrite d => E.NSS_InitReadWrite d
  | _ => SECStatus.SECFailure

/-- The world after lines 338–352: the JavaVM is captured and the error-code
table is set up. -/
def afterPrologue (w : World) : World :=
  { w.emit Event.GetJavaVM with JSS_javaVM := true }.emit Event.JSS_initErrcodeTranslationTable

/-- The world after line 397: the PKCS #11 strings have been handed over. -/
def afterPKCS11 (a : InitArgs) (w : World) : World :=
  (afterPrologue w).emit
    (Event.PK11_ConfigurePKCS11 a.manuString a.libraryString a.tokString a.keyTokString
      a.slotString a.keySlotString a.fipsString a.fipsKeyString 0 false)

/-- The Java object a call is made on, for the calls that run Java code of a
password callback or of the password it returned. -/
def Event.callee : Event → Option JObject
  | Event.CallObjectMethod o _ _ => some o
  | Event.Password_getByteCopy o => some o
  | Event.Password_clear o => some o
  | _ => none

/-- From `w` to `w'` the trace only grew, and every call that was added
satisfies `P`. -/
def Adds (P : Event → Prop) (w w' : World) : Prop :=
  w.trace <+: w'.trace ∧ ∀ e ∈ newEvents w w', P e

/-- The name under which the callback method for the given `retry` is looked
up (lines 640–652). -/
def pwMethodName (retry : Bool) : String :=
  if retry then "PW_CALLBACK_GET_PW_AGAIN_NAME" else "PW_CALLBACK_GET_PW_FIRST_NAME"

/-- The initialized world after object 1 and then object 2 were registered as
default password callback. -/
def twoCallbacksWorld : World :=
  JSS_setPasswordCallback {} (some 2) (JSS_setPasswordCallback {} (some 1) initializedWorld)

/-- The native init calls among the calls a call added to the trace. -/
def nativeInitCalls (before after : World) : List Event :=
  (newEvents before after).filter Event.isNativeInit

/-- What the specification says of `initializeAllNative`: it is
`initializeAllNative2` on the same arguments with `initializeJavaOnly`
replaced by `false`. -/
def initializeAllNative_spec (E : Env) (a : InitArgs) (w : World) : Outcome Unit :=
  initializeAllNative2 E { a with initializeJavaOnly := false } w

/-- The value a call returned, `none` when it aborted. -/
def Outcome.value? {α : Type} : Outcome α → Option α
  | Outcome.returned v _ => some v
  | Outcome.aborted _ => none

/-- The callback a call of `getPWFromCallback` uses (lines 605–614): the one
in `arg`, or the default one. -/
def effectiveCallback (arg : Option JObject) (w : World) : Option JObject :=
  match arg with
  | some cb => some cb
  | none => w.globalPasswordCallback.map GlobalRef.obj

/-- The contents with which a call handed the intermediate byte buffer back
(`JSS_DerefByteArray`), in the order of the calls. -/
def releasedBuffers (before after : World) : List (List Nat) :=
  (newEvents before after).filterMap fun e =>
    match e with
    | Event.JSS_DerefByteArray content => some content
    | _ => none

/-- Nothing failed between the construction of the `TokenCallbackInfo` and
`clear` (lines 626–706): the descriptor was built, the callback method was
found, the callback returned a password, the class and the two accessors of
the password were found, and neither `getByteCopy` nor `clear` raised. -/
def passwordPathClear (E : Env) (slot : Slot) (retry : Bool) (cb : JObject) : Bool :=
  (E.NewStringUTF slot.tokenName).isNone && E.FindClass_TokenCallbackInfo.isNone &&
  E.GetMethodID_TokenCallbackInfo.isNone && E.NewObject_TokenCallbackInfo.isNone &&
  (if retry then (E.callback cb).GetMethodID_getPWAgain
    else (E.callback cb).GetMethodID_getPWFirst).isNone &&
  decide ((if retry then (E.callback cb).getPasswordAgain slot.tokenName
    else (E.callback cb).getPasswordFirstAttempt slot.tokenName) = CallbackResult.password) &&
  (E.callback cb).passwordClassFound &&
  (E.callback cb).GetMethodID_getByteCopy.isNone && (E.callback cb).GetMethodID_clear.isNone &&
  (E.callback cb).getByteCopyThrows.isNone && (E.callback cb).clearThrows.isNone

/-- The handles of the first `k` entries of the module list, in list order. -/
def handles (k : Nat) : List PK11Module :=
  (List.range k).map PK11Module.mk

/-- A world with two loaded modules, each held by the module list only. -/
def twoModulesWorld : World :=
  { modules := [{ commonName := "NSS Internal PKCS #11 Module", refCount := 1 },
      { commonName := "Root Certs", refCount := 1 }] }

/-- Library answers under which wrapping the second module fails with an
`OutOfMemoryError`, the wrap function having released the reference and reset
the caller's pointer. -/
def secondWrapFails : Env :=
  { wrap := fun i =>
      if i = 1 then WrapResult.failed { cls := ExcClass.OUT_OF_MEMORY_ERROR } true
      else WrapResult.wrapped }

/-- A `DEBUG` build in which every password callback raises an exception of
its own on the first attempt. -/
def throwingCallbackDebug : Env :=
  { DEBUG := true,
    callback := fun _ =>
      { getPasswordFirstAttempt := fun _ =>
          CallbackResult.threw { cls := ExcClass.OTHER "java.lang.IllegalStateException" } } }

/-- A call that belongs to the extraction of lines 716–721: a
`GetByteArrayElements` that gives the elements, or the `JSS_DerefByteArray`
that hands them back. -/
def Event.isExtraction (E : Env) : Event → Bool
  | Event.GetByteArrayElements => E.GetByteArrayElements
  | Event.JSS_DerefByteArray _ => true
  | _ => false

/-- The call that started in `w` and ended in `o` took the bytes of the
password of `cb` out, handed the wiped buffer back and returned the
duplicate. -/
def Extracted (E : Env) (cb : JObject) (w : World) (o : Outcome (Option (List Nat))) : Prop :=
  ∃ bytes w', (E.callback cb).byteCopy = some bytes ∧
    o = Outcome.returned (if E.PL_strdup then some (cString bytes) else none) w' ∧
    w'.pending = none ∧ w.trace <+: w'.trace ∧
    releasedBuffers w w' = [JSS_wipeCharArray bytes]

/-- Library answers under which every password callback returns a password
whose byte copy is `sec` followed by a NUL. -/
def passwordCallbackEnv : Env :=
  { callback := fun _ =>
      { getPasswordFirstAttempt := fun _ => CallbackResult.password,
        byteCopy := some [115, 101, 99, 0] } }

/-! ## Lemmas on the trace and on the parts of the world a call leaves alone -/

@[simp] theorem emit_trace (w : World) (e : Event) : (w.emit e).trace = w.trace ++ [e] := rfl

@[simp] theorem emit_initialized (w : World) (e : Event) : (w.emit e).initialized = w.initialized := rfl

@[simp] theorem emit_pending (w : World) (e : Event) : (w.emit e).pending = w.pending := rfl

@[simp] theorem emit_ocsp (w : World) (e : Event) : (w.emit e).ocsp = w.ocsp := rfl

@[simp] theorem raise_trace (w : World) (t : Throwable) : (w.raise t).trace = w.trace := rfl

@[simp] theorem raise_pending (w : World) (t : Throwable) : (w.raise t).pending = some t := rfl

@[simp] theorem raise_callback (w : World) (t : Throwable) :
    (w.raise t).globalPasswordCallback = w.globalPasswordCallback := rfl

@[simp] theorem clear_trace (w : World) : w.ExceptionClear.trace = w.trace := rfl

@[simp] theorem clear_pending (w : World) : w.ExceptionClear.pending = none := rfl

@[simp] theorem throw_trace (c : ExcClass) (w : World) : (JSS_throw c w).trace = w.trace := rfl

@[simp] theorem throw_pending (c : ExcClass) (w : World) :
    (JSS_throw c w).pending = some { cls := c } := rfl

@[simp] theorem throwMsg_trace (c : ExcClass) (m : String) (w : World) :
    (JSS_throwMsg c m w).trace = w.trace := rfl

@[simp] theorem throwMsg_initialized (c : ExcClass) (m : String) (w : World) :
    (JSS_throwMsg c m w).initialized = w.initialized := rfl

@[simp] theorem throwMsg_ocsp (c : ExcClass) (m : String) (w : World) :
    (JSS_throwMsg c m w).ocsp = w.ocsp := rfl

@[simp] theorem throwMsg_pending (c : ExcClass) (m : String) (w : World) :
    (JSS_throwMsg c m w).pending = some { cls := c, msg := some m } := rfl

@[simp] theorem disableChecking_trace (w : World) :
    (CERT_DisableOCSPChecking w).trace = w.trace ++ [Event.CERT_DisableOCSPChecking] := rfl

@[simp] theorem disableChecking_initialized (w : World) :
    (CERT_DisableOCSPChecking w).initialized = w.initialized := rfl

@[simp] theorem disableChecking_pending (w : World) :
    (CERT_DisableOCSPChecking w).pending = w.pending := rfl

@[simp] theorem disableChecking_ocsp (w : World) :
    (CERT_DisableOCSPChecking w).ocsp = { w.ocsp with checking := false } := rfl

@[simp] theorem enableChecking_trace (w : World) :
    (CERT_EnableOCSPChecking w).trace = w.trace ++ [Event.CERT_EnableOCSPChecking] := rfl

@[simp] theorem enableChecking_initialized (w : World) :
    (CERT_EnableOCSPChecking w).initialized = w.initialized := rfl

@[simp] theorem enableChecking_pending (w : World) :
    (CERT_EnableOCSPChecking w).pending = w.pending := rfl

@[simp] theorem enableChecking_ocsp (w : World) :
    (CERT_EnableOCSPChecking w).ocsp = { w.ocsp with checking := true } := rfl

@[simp] theorem enableResponder_trace (w : World) :
    (CERT_EnableOCSPDefaultResponder w).trace = w.trace ++ [Event.CERT_EnableOCSPDefaultResponder] := rfl

@[simp] theorem enableResponder_initialized (w : World) :
    (CERT_EnableOCSPDefaultResponder w).initialized = w.initialized := rfl

@[simp] theorem enableResponder_pending (w : World) :
    (CERT_EnableOCSPDefaultResponder w).pending = w.pending := rfl

@[simp] theorem enableResponder_ocsp (w : World) :
    (CERT_EnableOCSPDefaultResponder w).ocsp = { w.ocsp with useDefaultResponder := true } := rfl

@[simp] theorem disableResponder_trace (w : World) :
    (CERT_DisableOCSPDefaultResponder w).trace = w.trace ++ [Event.CERT_DisableOCSPDefaultResponder] := rfl

@[simp] theorem disableResponder_initialized (w : World) :
    (CERT_DisableOCSPDefaultResponder w).initialized = w.initialized := rfl

@[simp] theorem disableResponder_pending (w : World) :
    (CERT_DisableOCSPDefaultResponder w).pending = w.pending := rfl

@[simp] theorem disableResponder_ocsp (w : World) :
    (CERT_DisableOCSPDefaultResponder w).ocsp = { w.ocsp with useDefaultResponder := false } := rfl

@[simp] theorem findCert_fst (E : Env) (n : Option String) (w : World) :
    (CERT_FindCertByNickname E n w).1 = E.CERT_FindCertByNickname n := rfl

@[simp] theorem findCert_snd (E : Env) (n : Option String) (w : World) :
    (CERT_FindCertByNickname E n w).2 = w.emit (Event.CERT_FindCertByNickname n) := rfl

@[simp] theorem pk11FindCert_fst (E : Env) (n : Option String) (w : World) :
    (PK11_FindCertFromNickname E n w).1 = E.PK11_FindCertFromNickname n := rfl

@[simp] theorem pk11FindCert_snd (E : Env) (n : Option String) (w : World) :
    (PK11_FindCertFromNickname E n w).2 = w.emit (Event.PK11_FindCertFromNickname n) := rfl

@[simp] theorem setResponder_fst (E : Env) (u n : Option String) (w : World) :
    (CERT_SetOCSPDefaultResponder E u n w).1 = E.CERT_SetOCSPDefaultResponder u n := by
  unfold CERT_SetOCSPDefaultResponder
  cases E.CERT_SetOCSPDefaultResponder u n <;> rfl

@[simp] theorem setResponder_trace (E : Env) (u n : Option String) (w : World) :
    (CERT_SetOCSPDefaultResponder E u n w).2.trace =
      w.trace ++ [Event.CERT_SetOCSPDefaultResponder u n] := by
  unfold CERT_SetOCSPDefaultResponder
  cases E.CERT_SetOCSPDefaultResponder u n <;> rfl

@[simp] theorem setResponder_initialized (E : Env) (u n : Option String) (w : World) :
    (CERT_SetOCSPDefaultResponder E u n w).2.initialized = w.initialized := by
  unfold CERT_SetOCSPDefaultResponder
  cases E.CERT_SetOCSPDefaultResponder u n <;> rfl

@[simp] theorem setResponder_pending (E : Env) (u n : Option String) (w : World) :
    (CERT_SetOCSPDefaultResponder E u n w).2.pending = w.pending := by
  unfold CERT_SetOCSPDefaultResponder
  cases E.CERT_SetOCSPDefaultResponder u n <;> rfl

theorem setResponder_ocsp_success (E : Env) (u n : Option String) (w : World)
    (h : E.CERT_SetOCSPDefaultResponder u n = SECStatus.SECSuccess) :
    (CERT_SetOCSPDefaultResponder E u n w).2.ocsp =
      { w.ocsp with defaultResponderURL := u, defaultResponderNickname := n } := by
  unfold CERT_SetOCSPDefaultResponder
  rw [h]
  rfl

theorem setResponder_ocsp_failure (E : Env) (u n : Option String) (w : World)
    (h : E.CERT_SetOCSPDefaultResponder u n = SECStatus.SECFailure) :
    (CERT_SetOCSPDefaultResponder E u n w).2.ocsp = w.ocsp := by
  unfold CERT_SetOCSPDefaultResponder
  rw [h]
  rfl

/-- `ConfigureOCSP` only adds calls to the trace. -/
theorem ConfigureOCSP_trace_grows (E : Env) (en : Bool) (url nick : Option String) (w : World) :
    w.trace <+: (ConfigureOCSP E en url nick w).2.trace := by
  unfold ConfigureOCSP configureResponder
  simp only [JSS_RefJString]
  split_ifs <;> simp [List.prefix_append, List.append_assoc]

/-- `ConfigureOCSP` leaves `initialized` alone. -/
theorem ConfigureOCSP_initialized (E : Env) (en : Bool) (url nick : Option String) (w : World) :
    (ConfigureOCSP E en url nick w).2.initialized = w.initialized := by
  unfold ConfigureOCSP configureResponder
  simp only [JSS_RefJString]
  split_ifs <;> simp

/-- A failing `ConfigureOCSP` leaves an exception pending. -/
theorem ConfigureOCSP_failure_pending (E : Env) (en : Bool) (url nick : Option String) (w : World)
    (h : (ConfigureOCSP E en url nick w).1 ≠ SECStatus.SECSuccess) :
    (ConfigureOCSP E en url nick w).2.pending.isSome = true := by
  revert h
  unfold ConfigureOCSP configureResponder
  simp only [JSS_RefJString]
  split_ifs <;> simp

/-- `nativeInit` calls one native init entry point and nothing else, and its
status is what the library answers to that call. -/
theorem nativeInit_event (E : Env) (a : InitArgs) (w : World) :
    ∃ e, e.isNativeInit = true ∧ (nativeInit E a w).2 = w.emit e ∧
      (nativeInit E a w).1 = E.nativeInitStatus e := by
  unfold nativeInit
  dsimp only
  split_ifs
  · exact ⟨Event.NSS_Initialize _ _ _ _ _, rfl, rfl, rfl⟩
  · exact ⟨Event.NSS_Init _, rfl, rfl, rfl⟩
  · exact ⟨Event.NSS_InitReadWrite _, rfl, rfl, rfl⟩

/-- A list that extends another is that list followed by what was added. -/
theorem trace_eq_append_newEvents (w w' : World) (h : w.trace <+: w'.trace) :
    w'.trace = w.trace ++ newEvents w w' := by
  obtain ⟨t, ht⟩ := h
  simp [newEvents, ← ht]

/-- Every call `ConfigureOCSP` makes is an OCSP call, and the first one is
`CERT_DisableOCSPChecking`. -/
theorem ConfigureOCSP_newEvents (E : Env) (en : Bool) (url nick : Option String) (w : World) :
    Event.CERT_DisableOCSPChecking ∈ newEvents w (ConfigureOCSP E en url nick w).2 ∧
      ∀ e ∈ newEvents w (ConfigureOCSP E en url nick w).2, e.isOCSP = true := by
  unfold ConfigureOCSP configureResponder newEvents
  simp only [JSS_RefJString]
  split_ifs <;> simp [List.append_assoc, Event.isOCSP]

/-- What follows the native init call only adds calls to the trace. -/
theorem afterNativeInit_trace_grows (E : Env) (a : InitArgs) (rv : SECStatus) (w : World) :
    w.trace <+: (afterNativeInit E a rv w).trace := by
  have h := ConfigureOCSP_trace_grows E a.ocspCheckingEnabled a.ocspResponderURL
    a.ocspResponderCertNickname ((w.emit Event.JSS_RegisterDynamicOids).emit Event.PK11_SetPasswordFunc)
  have h' : w.trace <+: (ConfigureOCSP E a.ocspCheckingEnabled a.ocspResponderURL
      a.ocspResponderCertNickname
      ((w.emit Event.JSS_RegisterDynamicOids).emit Event.PK11_SetPasswordFunc)).2.trace := by
    refine List.IsPrefix.trans ?_ h
    simp [List.append_assoc]
  unfold afterNativeInit
  dsimp only
  split_ifs
  all_goals first
    | exact h'
    | (simp; done)
    | (refine List.IsPrefix.trans h' ?_; simp [List.append_assoc])

/-- The calls `afterNativeInit` adds to the trace, step by step. -/
theorem afterNativeInit_trace (E : Env) (a : InitArgs) (rv : SECStatus) (v : World) :
    (afterNativeInit E a rv v).trace = v.trace ++
      (if rv ≠ SECStatus.SECSuccess then []
       else if E.JSS_RegisterDynamicOids ≠ SECStatus.SECSuccess then [Event.JSS_RegisterDynamicOids]
       else [Event.JSS_RegisterDynamicOids, Event.PK11_SetPasswordFunc] ++
         newEvents ((v.emit Event.JSS_RegisterDynamicOids).emit Event.PK11_SetPasswordFunc)
           (ConfigureOCSP E a.ocspCheckingEnabled a.ocspResponderURL a.ocspResponderCertNickname
             ((v.emit Event.JSS_RegisterDynamicOids).emit Event.PK11_SetPasswordFunc)).2 ++
         (if (ConfigureOCSP E a.ocspCheckingEnabled a.ocspResponderURL a.ocspResponderCertNickname
               ((v.emit Event.JSS_RegisterDynamicOids).emit Event.PK11_SetPasswordFunc)).1
               ≠ SECStatus.SECSuccess then []
          else if E.NSS_SetDomesticPolicy ≠ SECStatus.SECSuccess then [Event.NSS_SetDomesticPolicy]
          else Event.NSS_SetDomesticPolicy ::
            (if a.PKIXVerify then [Event.CERT_SetUsePKIXForValidation true] else []))) := by
  have h := trace_eq_append_newEvents _ _
    (ConfigureOCSP_trace_grows E a.ocspCheckingEnabled a.ocspResponderURL a.ocspResponderCertNickname
      ((v.emit Event.JSS_RegisterDynamicOids).emit Event.PK11_SetPasswordFunc))
  unfold afterNativeInit
  dsimp only
  split_ifs <;> simp [h, List.append_assoc]

/-- `afterNativeInit` sets `initialized` exactly when the native init status,
the OID registration, `ConfigureOCSP` and the policy call all succeeded. -/
theorem afterNativeInit_initialized (E : Env) (a : InitArgs) (rv : SECStatus) (v : World) :
    (afterNativeInit E a rv v).initialized =
      if rv = SECStatus.SECSuccess ∧ E.JSS_RegisterDynamicOids = SECStatus.SECSuccess ∧
          (ConfigureOCSP E a.ocspCheckingEnabled a.ocspResponderURL a.ocspResponderCertNickname
            ((v.emit Event.JSS_RegisterDynamicOids).emit Event.PK11_SetPasswordFunc)).1
            = SECStatus.SECSuccess ∧
          E.NSS_SetDomesticPolicy = SECStatus.SECSuccess
      then true else v.initialized := by
  unfold afterNativeInit
  dsimp only
  split_ifs <;> simp_all [ConfigureOCSP_initialized]

/-- When one of the four statuses is a failure, `afterNativeInit` ends with an
exception pending. -/
theorem afterNativeInit_pending (E : Env) (a : InitArgs) (rv : SECStatus) (v : World)
    (h : ¬(rv = SECStatus.SECSuccess ∧ E.JSS_RegisterDynamicOids = SECStatus.SECSuccess ∧
          (ConfigureOCSP E a.ocspCheckingEnabled a.ocspResponderURL a.ocspResponderCertNickname
            ((v.emit Event.JSS_RegisterDynamicOids).emit Event.PK11_SetPasswordFunc)).1
            = SECStatus.SECSuccess ∧
          E.NSS_SetDomesticPolicy = SECStatus.SECSuccess)) :
    (afterNativeInit E a rv v).pending.isSome = true := by
  revert h
  unfold afterNativeInit
  dsimp only
  split_ifs with h1 h2 h3 h4 <;> simp_all
  exact ConfigureOCSP_failure_pending _ _ _ _ _ h3

/-- An OCSP call is not a native init call. -/
theorem isOCSP_not_nativeInit (e : Event) (h : e.isOCSP = true) : e.isNativeInit = false := by
  cases e <;> first | rfl | exact Bool.noConfusion h

/-- The native init entry point `nativeInit` calls. -/
theorem nativeInit_snd (E : Env) (a : InitArgs) (w : World) :
    (nativeInit E a w).2 = w.emit
      (if extendedInit a then
        Event.NSS_Initialize a.configDir a.certPrefix a.keyPrefix a.secmodName (initFlags E a)
       else if a.readOnly then Event.NSS_Init a.configDir
       else Event.NSS_InitReadWrite a.configDir) := by
  unfold nativeInit
  simp only [JSS_RefJString]
  split_ifs <;> rfl

/-- What follows the native init call makes no native init call. -/
theorem afterNativeInit_no_nativeInit (E : Env) (a : InitArgs) (rv : SECStatus) (v : World) :
    (newEvents v (afterNativeInit E a rv v)).filter Event.isNativeInit = [] := by
  have hO := (ConfigureOCSP_newEvents E a.ocspCheckingEnabled a.ocspResponderURL
    a.ocspResponderCertNickname
    ((v.emit Event.JSS_RegisterDynamicOids).emit Event.PK11_SetPasswordFunc)).2
  have hO' : (newEvents ((v.emit Event.JSS_RegisterDynamicOids).emit Event.PK11_SetPasswordFunc)
      (ConfigureOCSP E a.ocspCheckingEnabled a.ocspResponderURL a.ocspResponderCertNickname
        ((v.emit Event.JSS_RegisterDynamicOids).emit Event.PK11_SetPasswordFunc)).2).filter
      Event.isNativeInit = [] := by
    rw [List.filter_eq_nil_iff]
    intro x hx
    simp [isOCSP_not_nativeInit x (hO x hx)]
  rw [newEvents, afterNativeInit_trace, List.drop_left]
  generalize newEvents ((v.emit Event.JSS_RegisterDynamicOids).emit Event.PK11_SetPasswordFunc)
      (ConfigureOCSP E a.ocspCheckingEnabled a.ocspResponderURL a.ocspResponderCertNickname
        ((v.emit Event.JSS_RegisterDynamicOids).emit Event.PK11_SetPasswordFunc)).2 = O at hO'
  split_ifs <;> simp [List.filter_append, List.filter_cons, Event.isNativeInit, hO']

/-! ## The paths through `initializeAllNative2` -/

@[simp] theorem afterPrologue_trace (w : World) :
    (afterPrologue w).trace = w.trace ++ [Event.GetJavaVM, Event.JSS_initErrcodeTranslationTable] := by
  simp [afterPrologue, World.emit]

@[simp] theorem afterPrologue_initialized (w : World) :
    (afterPrologue w).initialized = w.initialized := rfl

@[simp] theorem afterPrologue_pending (w : World) : (afterPrologue w).pending = w.pending := rfl

@[simp] theorem afterPrologue_ocsp (w : World) : (afterPrologue w).ocsp = w.ocsp := rfl

@[simp] theorem afterPKCS11_trace (a : InitArgs) (w : World) :
    (afterPKCS11 a w).trace = w.trace ++
      [Event.GetJavaVM, Event.JSS_initErrcodeTranslationTable,
       Event.PK11_ConfigurePKCS11 a.manuString a.libraryString a.tokString a.keyTokString
         a.slotString a.keySlotString a.fipsString a.fipsKeyString 0 false] := by
  simp [afterPKCS11]

@[simp] theorem afterPKCS11_initialized (a : InitArgs) (w : World) :
    (afterPKCS11 a w).initialized = w.initialized := rfl

@[simp] theorem afterPKCS11_pending (a : InitArgs) (w : World) :
    (afterPKCS11 a w).pending = w.pending := rfl

theorem init_path_already (E : Env) (a : InitArgs) (w : World)
    (hreq : requiredStringMissing a = false) (hinit : w.initialized = true) :
    initializeAllNative2 E a w =
      Outcome.returned () (JSS_throw ExcClass.ALREADY_INITIALIZED_EXCEPTION w) := by
  simp [initializeAllNative2, hreq, hinit]

theorem init_path_java_only (E : Env) (a : InitArgs) (w : World)
    (hreq : requiredStringMissing a = false) (h0 : w.initialized = false) (hvm : E.GetJavaVM = 0)
    (hjo : a.initializeJavaOnly = true) :
    initializeAllNative2 E a w =
      Outcome.returned () { afterPrologue w with initialized := true } := by
  simp [initializeAllNative2, hreq, h0, hvm, hjo, afterPrologue]

theorem init_path_pending (E : Env) (a : InitArgs) (w : World)
    (hreq : requiredStringMissing a = false) (h0 : w.initialized = false) (hvm : E.GetJavaVM = 0)
    (hjo : a.initializeJavaOnly = false) (hp : w.pending.isSome = true) :
    initializeAllNative2 E a w =
      if E.DEBUG && !E.ASSERT_OUTOFMEM w.pending then Outcome.aborted (afterPrologue w)
      else Outcome.returned () (afterPrologue w) := by
  simp only [initializeAllNative2, hreq, h0, hvm, hjo]
  simp [hp, afterPrologue, World.emit]

theorem init_path_assert (E : Env) (a : InitArgs) (w : World)
    (hreq : requiredStringMissing a = false) (h0 : w.initialized = false) (hvm : E.GetJavaVM = 0)
    (hjo : a.initializeJavaOnly = false) (hp : w.pending = none)
    (hd : E.DEBUG = true) (hlen : pkcs11LengthsOK a = false) :
    initializeAllNative2 E a w = Outcome.aborted (afterPrologue w) := by
  simp only [initializeAllNative2, hreq, h0, hvm, hjo]
  simp [hp, hd, hlen, afterPrologue, World.emit]

theorem init_path_full (E : Env) (a : InitArgs) (w : World)
    (hreq : requiredStringMissing a = false) (h0 : w.initialized = false) (hvm : E.GetJavaVM = 0)
    (hjo : a.initializeJavaOnly = false) (hp : w.pending = none)
    (hd : E.DEBUG = false ∨ pkcs11LengthsOK a = true) :
    initializeAllNative2 E a w = Outcome.returned ()
      (afterNativeInit E a (nativeInit E a (afterPKCS11 a w)).1 (nativeInit E a (afterPKCS11 a w)).2) := by
  simp only [initializeAllNative2, hreq, h0, hvm, hjo, JSS_RefJString]
  rcases hd with hd | hd <;> simp [hp, hd, afterPKCS11, afterPrologue, World.emit]

/-- A call of `initializeAllNative2` with the required strings non-null and
`GetJavaVM` succeeding that returns with no exception pending has set
`initialized`: every other way out of the function leaves an exception
pending or stops at an assertion. -/
theorem init_success_sets_initialized (E : Env) (a : InitArgs) (w w1 : World)
    (hreq : requiredStringMissing a = false) (hvm : E.GetJavaVM = 0)
    (h : initializeAllNative2 E a w = Outcome.returned () w1) (hp : w1.pending = none) :
    w1.initialized = true := by
  cases h0 : w.initialized with
  | true =>
    rw [init_path_already E a w hreq h0] at h
    have e : w1 = JSS_throw ExcClass.ALREADY_INITIALIZED_EXCEPTION w := by
      injection h with _ h2
      exact h2.symm
    rw [e] at hp
    simp at hp
  | false =>
    cases hjo : a.initializeJavaOnly with
    | true =>
      rw [init_path_java_only E a w hreq h0 hvm hjo] at h
      injection h with _ h2
      rw [← h2]
    | false =>
      cases hpw : w.pending with
      | some t =>
        rw [init_path_pending E a w hreq h0 hvm hjo (by simp [hpw])] at h
        split_ifs at h
        injection h with _ h2
        rw [← h2, afterPrologue_pending, hpw] at hp
        exact Option.noConfusion hp
      | none =>
        by_cases hd : E.DEBUG = false ∨ pkcs11LengthsOK a = true
        · rw [init_path_full E a w hreq h0 hvm hjo hpw hd] at h
          injection h with _ h2
          by_cases hs : (nativeInit E a (afterPKCS11 a w)).1 = SECStatus.SECSuccess ∧
              E.JSS_RegisterDynamicOids = SECStatus.SECSuccess ∧
              (ConfigureOCSP E a.ocspCheckingEnabled a.ocspResponderURL
                a.ocspResponderCertNickname
                (((nativeInit E a (afterPKCS11 a w)).2.emit Event.JSS_RegisterDynamicOids).emit
                  Event.PK11_SetPasswordFunc)).1 = SECStatus.SECSuccess ∧
              E.NSS_SetDomesticPolicy = SECStatus.SECSuccess
          · rw [← h2, afterNativeInit_initialized, if_pos hs]
          · have hq := afterNativeInit_pending E a _ _ hs
            rw [h2, hp] at hq
            simp at hq
        · have hd1 : E.DEBUG = true := by
            cases hD : E.DEBUG
            · exact absurd (Or.inl hD) hd
            · rfl
          have hd2 : pkcs11LengthsOK a = false := by
            cases hL : pkcs11LengthsOK a
            · rfl
            · exact absurd (Or.inr hL) hd
          rw [init_path_assert E a w hreq h0 hvm hjo hpw hd1 hd2] at h
          exact Outcome.noConfusion h

/-! ## The calls `getPWFromCallback` makes -/

@[simp] theorem world_returned {α : Type} (v : α) (w : World) :
    (Outcome.returned v w).world = w := rfl

@[simp] theorem world_aborted {α : Type} (w : World) :
    (Outcome.aborted w : Outcome α).world = w := rfl

@[simp] theorem pwFinish_trace (E : Env) (r : Option (List Nat)) (w : World) :
    (pwFinish E r w).world.trace = w.trace := by
  cases hD : E.DEBUG <;> cases hp : w.pending <;> simp only [pwFinish, hD, hp, Outcome.world] <;>
    try rfl
  split_ifs <;> rfl

@[simp] theorem jniFailure_trace (E : Env) (t : Throwable) (w : World) :
    (jniFailure E t w).world.trace = w.trace := by
  unfold jniFailure
  dsimp only
  split_ifs <;> rfl

/-- `makePWCBInfo` runs no Java code of a callback. -/
theorem makePWCBInfo_callee (E : Env) (slot : Slot) (w : World) :
    w.trace <+: (makePWCBInfo E slot w).world.trace ∧
    ∀ e ∈ newEvents w (makePWCBInfo E slot w).world, e.callee = none := by
  cases h1 : E.NewStringUTF slot.tokenName <;>
    cases h2 : E.FindClass_TokenCallbackInfo <;>
    cases h3 : E.GetMethodID_TokenCallbackInfo <;>
    cases h4 : E.NewObject_TokenCallbackInfo <;>
    simp [makePWCBInfo, newEvents, h1, h2, h3, h4, List.append_assoc, Event.callee]

/-- `extractPassword` runs Java code of the given callback's password only. -/
theorem extractPassword_callee (E : Env) (cb : JObject) (w : World) :
    w.trace <+: (extractPassword E cb w).world.trace ∧
    ∀ e ∈ newEvents w (extractPassword E cb w).world, ∀ o, e.callee = some o → o = cb := by
  unfold extractPassword
  dsimp only
  cases h1 : (E.callback cb).GetMethodID_getByteCopy <;>
    cases h2 : (E.callback cb).GetMethodID_clear <;>
    cases h3 : (E.callback cb).getByteCopyThrows <;>
    cases h4 : (E.callback cb).clearThrows <;>
    cases h5 : (E.callback cb).byteCopy <;>
    cases hp : w.pending <;>
    simp [hp, newEvents, apply_ite Outcome.world, apply_ite World.trace, List.append_assoc] <;>
    (try split_ifs) <;>
    simp [Event.callee, eq_comm]

theorem adds_refl {P : Event → Prop} {w w' : World} (h : w'.trace = w.trace) : Adds P w w' := by
  simp [Adds, newEvents, h]

theorem adds_trans {P : Event → Prop} {w w' w'' : World} (h1 : Adds P w w') (h2 : Adds P w' w'') :
    Adds P w w'' := by
  obtain ⟨⟨l1, hl1⟩, hP1⟩ := h1
  obtain ⟨⟨l2, hl2⟩, hP2⟩ := h2
  have e1 : newEvents w w' = l1 := by simp [newEvents, ← hl1]
  have e2 : newEvents w' w'' = l2 := by simp [newEvents, ← hl2]
  have e3 : newEvents w w'' = l1 ++ l2 := by simp [newEvents, ← hl2, ← hl1, List.append_assoc]
  refine ⟨⟨l1 ++ l2, by rw [← hl2, ← hl1, List.append_assoc]⟩, ?_⟩
  intro e he
  rw [e3, List.mem_append] at he
  rcases he with he | he
  · exact hP1 e (e1 ▸ he)
  · exact hP2 e (e2 ▸ he)

theorem adds_emit {P : Event → Prop} (w : World) (e : Event) (h : P e) : Adds P w (w.emit e) := by
  simp [Adds, newEvents, h]

theorem adds_congr {P : Event → Prop} {w w' w'' : World} (h : Adds P w w')
    (ht : w''.trace = w'.trace) : Adds P w w'' := by
  simpa [Adds, newEvents, ht] using h

theorem adds_mono {P Q : Event → Prop} {w w' : World} (hPQ : ∀ e, P e → Q e) (h : Adds P w w') :
    Adds Q w w' :=
  ⟨h.1, fun e he => hPQ e (h.2 e he)⟩

/-- `callPasswordCallback` runs Java code of the given callback only. -/
theorem callPasswordCallback_callee (E : Env) (cb : JObject) (retry : Bool) (info : String)
    (w : World) :
    Adds (fun e => ∀ o, e.callee = some o → o = cb) w
      (callPasswordCallback E cb retry info w).world := by
  unfold callPasswordCallback
  dsimp only
  generalize (if retry = true then "PW_CALLBACK_GET_PW_AGAIN_NAME"
    else "PW_CALLBACK_GET_PW_FIRST_NAME") = name
  have hG : Adds (fun e => ∀ o, e.callee = some o → o = cb) w
      (w.emit (Event.GetMethodID "PW_CALLBACK_CLASS" name)) :=
    adds_emit _ _ (by simp [Event.callee])
  cases (if retry = true then (E.callback cb).GetMethodID_getPWAgain
      else (E.callback cb).GetMethodID_getPWFirst) with
  | some t =>
    dsimp only
    refine adds_congr hG ?_
    split_ifs <;> simp
  | none =>
    dsimp only
    generalize (if retry = true then (E.callback cb).getPasswordAgain info
      else (E.callback cb).getPasswordFirstAttempt info) = res
    have hC : Adds (fun e => ∀ o, e.callee = some o → o = cb) w
        ((w.emit (Event.GetMethodID "PW_CALLBACK_CLASS" name)).emit
          (Event.CallObjectMethod cb name info)) :=
      adds_trans hG (adds_emit _ _ (by simp [Event.callee]))
    generalize hw3 : (match res with
      | CallbackResult.threw t =>
        ((w.emit (Event.GetMethodID "PW_CALLBACK_CLASS" name)).emit
          (Event.CallObjectMethod cb name info)).raise t
      | _ => (w.emit (Event.GetMethodID "PW_CALLBACK_CLASS" name)).emit
          (Event.CallObjectMethod cb name info)) = w3
    have ht3 : w3.trace = ((w.emit (Event.GetMethodID "PW_CALLBACK_CLASS" name)).emit
          (Event.CallObjectMethod cb name info)).trace := by
      subst hw3
      cases res <;> rfl
    have h3 := adds_congr hC ht3
    split_ifs
    · exact adds_congr h3 (by simp)
    · exact adds_congr h3 (by simp)
    · exact adds_congr h3 (by simp)
    · exact adds_congr h3 (by simp)
    · exact adds_trans h3 (extractPassword_callee E cb w3)

/-- `getPWFromCallback` runs Java code of one object only: the callback in
`arg`, or the default callback when `arg` is `NULL`. -/
theorem getPWFromCallback_callee (E : Env) (slot : Option Slot) (retry : Bool) (arg : Option JObject)
    (w : World) :
    Adds (fun e => ∀ o, e.callee = some o →
        (match arg with
          | some cb => some cb
          | none => w.globalPasswordCallback.map GlobalRef.obj) = some o)
      w (getPWFromCallback E slot retry arg w).world := by
  cases slot with
  | none =>
    unfold getPWFromCallback
    dsimp only
    split_ifs <;> exact adds_refl rfl
  | some s =>
    unfold getPWFromCallback
    dsimp only
    generalize (match arg with
          | some cb => some cb
          | none => w.globalPasswordCallback.map GlobalRef.obj) = eff
    cases eff with
    | none => exact adds_refl rfl
    | some cb =>
      dsimp only
      split_ifs with hvm hat
      · exact adds_refl rfl
      · exact adds_emit _ _ (by simp [Event.callee])
      · have hA : Adds (fun e => ∀ o, e.callee = some o → some cb = some o) w
            (w.emit Event.AttachCurrentThread) := adds_emit _ _ (by simp [Event.callee])
        have hM := makePWCBInfo_callee E s (w.emit Event.AttachCurrentThread)
        have hM' : Adds (fun e => ∀ o, e.callee = some o → some cb = some o)
            (w.emit Event.AttachCurrentThread)
            (makePWCBInfo E s (w.emit Event.AttachCurrentThread)).world :=
          ⟨hM.1, fun e he o ho => by rw [hM.2 e he] at ho; exact Option.noConfusion ho⟩
        have hAM := adds_trans hA hM'
        cases hm : makePWCBInfo E s (w.emit Event.AttachCurrentThread) with
        | aborted w1 =>
          rw [hm] at hAM
          exact hAM
        | returned info w1 =>
          rw [hm] at hAM
          cases info with
          | none => exact adds_congr hAM (by simp)
          | some pwcbInfo =>
            exact adds_trans hAM
              (adds_mono (fun e h o ho => by rw [h o ho]) (callPasswordCallback_callee E cb retry pwcbInfo w1))

/-- When the callback method is found, `callPasswordCallback` calls it. -/
theorem callPasswordCallback_invokes (E : Env) (cb : JObject) (retry : Bool) (info : String)
    (w : World)
    (hm : (if retry then (E.callback cb).GetMethodID_getPWAgain
      else (E.callback cb).GetMethodID_getPWFirst) = none) :
    (w.trace ++ [Event.GetMethodID "PW_CALLBACK_CLASS" (pwMethodName retry),
        Event.CallObjectMethod cb (pwMethodName retry) info]) <+:
      (callPasswordCallback E cb retry info w).world.trace := by
  unfold callPasswordCallback pwMethodName
  dsimp only
  rw [hm]
  dsimp only
  generalize (if retry = true then "PW_CALLBACK_GET_PW_AGAIN_NAME"
    else "PW_CALLBACK_GET_PW_FIRST_NAME") = name
  generalize (if retry = true then (E.callback cb).getPasswordAgain info
    else (E.callback cb).getPasswordFirstAttempt info) = res
  generalize hw3 : (match res with
    | CallbackResult.threw t =>
      ((w.emit (Event.GetMethodID "PW_CALLBACK_CLASS" name)).emit
        (Event.CallObjectMethod cb name info)).raise t
    | _ => (w.emit (Event.GetMethodID "PW_CALLBACK_CLASS" name)).emit
        (Event.CallObjectMethod cb name info)) = w3
  have ht3 : w3.trace = w.trace ++ [Event.GetMethodID "PW_CALLBACK_CLASS" name,
      Event.CallObjectMethod cb name info] := by
    subst hw3
    cases res <;> simp [List.append_assoc]
  rw [← ht3]
  split_ifs
  · simp
  · simp
  · simp
  · simp
  · exact (extractPassword_callee E cb w3).1

/-- When the thread attaches, the `TokenCallbackInfo` is built and the
callback method is found, `getPWFromCallback` calls that method of the
effective callback with the name of the slot's token. -/
theorem getPWFromCallback_invokes (E : Env) (slot : Slot) (retry : Bool) (arg : Option JObject)
    (w : World) (cb : JObject)
    (hcb : (match arg with
      | some cb => some cb
      | none => w.globalPasswordCallback.map GlobalRef.obj) = some cb)
    (hvm : w.JSS_javaVM = true) (hat : E.AttachCurrentThread = 0)
    (hs : E.NewStringUTF slot.tokenName = none) (hf : E.FindClass_TokenCallbackInfo = none)
    (hg : E.GetMethodID_TokenCallbackInfo = none) (hn : E.NewObject_TokenCallbackInfo = none)
    (hm : (if retry then (E.callback cb).GetMethodID_getPWAgain
      else (E.callback cb).GetMethodID_getPWFirst) = none) :
    Event.CallObjectMethod cb (pwMethodName retry) slot.tokenName ∈
      newEvents w (getPWFromCallback E (some slot) retry arg w).world := by
  have hmk : makePWCBInfo E slot (w.emit Event.AttachCurrentThread) =
      Outcome.returned (some slot.tokenName)
        (((((w.emit Event.AttachCurrentThread).emit (Event.NewStringUTF slot.tokenName)).emit
          (Event.FindClass "TOKEN_CBINFO_CLASS_NAME")).emit
          (Event.GetMethodID "TOKEN_CBINFO_CLASS_NAME" "TOKEN_CBINFO_CONSTRUCTOR_NAME")).emit
          (Event.NewObject "TOKEN_CBINFO_CLASS_NAME" slot.tokenName)) := by
    simp [makePWCBInfo, hs, hf, hg, hn]
  have h := callPasswordCallback_invokes E cb retry slot.tokenName
    (((((w.emit Event.AttachCurrentThread).emit (Event.NewStringUTF slot.tokenName)).emit
      (Event.FindClass "TOKEN_CBINFO_CLASS_NAME")).emit
      (Event.GetMethodID "TOKEN_CBINFO_CLASS_NAME" "TOKEN_CBINFO_CONSTRUCTOR_NAME")).emit
      (Event.NewObject "TOKEN_CBINFO_CLASS_NAME" slot.tokenName)) hm
  unfold getPWFromCallback
  dsimp only
  rw [hcb]
  simp only [hvm, hat, hmk, Bool.not_true, Bool.false_eq_true, if_false, ne_eq, not_true_eq_false]
  obtain ⟨t, ht⟩ := h
  rw [newEvents, ← ht]
  simp [List.append_assoc]

/-! ## What `JSS_setPasswordCallback` does when `NewGlobalRef` succeeds -/

theorem setPasswordCallback_callback (E : Env) (cb : JObject) (w : World)
    (hE : E.NewGlobalRef = true) :
    (JSS_setPasswordCallback E (some cb) w).globalPasswordCallback =
      some { id := w.nextRef, obj := cb } := by
  cases h : w.globalPasswordCallback <;>
    simp [JSS_setPasswordCallback, NewGlobalRef, DeleteGlobalRef, World.emit, h, hE]

theorem setPasswordCallback_nextRef (E : Env) (cb : JObject) (w : World)
    (hE : E.NewGlobalRef = true) :
    (JSS_setPasswordCallback E (some cb) w).nextRef = w.nextRef + 1 := by
  cases h : w.globalPasswordCallback <;>
    simp [JSS_setPasswordCallback, NewGlobalRef, DeleteGlobalRef, World.emit, h, hE]

theorem setPasswordCallback_javaVM (E : Env) (cb : JObject) (w : World)
    (hE : E.NewGlobalRef = true) :
    (JSS_setPasswordCallback E (some cb) w).JSS_javaVM = w.JSS_javaVM := by
  cases h : w.globalPasswordCallback <;>
    simp [JSS_setPasswordCallback, NewGlobalRef, DeleteGlobalRef, World.emit, h, hE]

theorem setPasswordCallback_trace (E : Env) (cb : JObject) (w : World)
    (hE : E.NewGlobalRef = true) :
    (JSS_setPasswordCallback E (some cb) w).trace =
      w.trace ++ (match w.globalPasswordCallback with
        | some old => [Event.DeleteGlobalRef old, Event.NewGlobalRef cb]
        | none => [Event.NewGlobalRef cb]) := by
  cases h : w.globalPasswordCallback <;>
    simp [JSS_setPasswordCallback, NewGlobalRef, DeleteGlobalRef, World.emit, h, hE]

/-! ## What `getPWFromCallback` returns -/

theorem pwFinish_returned {E : Env} {x r : Option (List Nat)} {w w' : World}
    (h : pwFinish E x w = Outcome.returned r w') :
    r = x ∧ w'.pending = none ∧ w'.trace = w.trace := by
  unfold pwFinish at h
  cases hD : E.DEBUG <;> cases hp : w.pending <;> simp only [hD, hp] at h
  · simp at h
    obtain ⟨rfl, rfl⟩ := h
    exact ⟨rfl, rfl, rfl⟩
  · simp at h
    obtain ⟨rfl, rfl⟩ := h
    exact ⟨rfl, rfl, rfl⟩
  · simp at h
    obtain ⟨rfl, rfl⟩ := h
    exact ⟨rfl, hp, rfl⟩
  · split_ifs at h <;> simp at h
    all_goals
      obtain ⟨rfl, rfl⟩ := h
      exact ⟨rfl, rfl, rfl⟩

theorem pwFinish_release (E : Env) (x : Option (List Nat)) (w : World) (hD : E.DEBUG = false) :
    pwFinish E x w = Outcome.returned x w.ExceptionClear := by
  simp [pwFinish, hD]

theorem pwFinish_clean (E : Env) (x : Option (List Nat)) (w : World) (hp : w.pending = none) :
    ∃ w', pwFinish E x w = Outcome.returned x w' ∧ w'.pending = none ∧ w'.trace = w.trace := by
  cases hD : E.DEBUG
  · exact ⟨w.ExceptionClear, by simp [pwFinish, hD], rfl, rfl⟩
  · exact ⟨w, by simp [pwFinish, hD, hp], hp, rfl⟩

theorem extractPassword_safe (E : Env) (cb : JObject) (w : World) (r : Option (List Nat))
    (w' : World) (h : extractPassword E cb w = Outcome.returned r w') :
    w'.pending = none ∧
    (r ≠ none → (E.callback cb).GetMethodID_getByteCopy = none ∧
      (E.callback cb).GetMethodID_clear = none ∧ (E.callback cb).getByteCopyThrows = none ∧
      (E.callback cb).clearThrows = none) := by
  unfold extractPassword at h
  dsimp only at h
  cases h1 : (E.callback cb).GetMethodID_getByteCopy <;>
    cases h2 : (E.callback cb).GetMethodID_clear <;>
    cases h3 : (E.callback cb).getByteCopyThrows <;>
    cases h4 : (E.callback cb).clearThrows <;>
    simp only [h1, h2, h3, h4, Option.isSome_none, Option.isSome_some, Bool.or_false,
      Bool.or_true, Bool.false_eq_true, if_false, if_true, emit_pending, raise_pending,
      Option.isNone_some] at h <;>
    (try split_ifs at h) <;>
    (try split at h) <;>
    first
    | exact Outcome.noConfusion h
    | (obtain ⟨hr, hp, _⟩ := pwFinish_returned h
       subst hr
       simp [hp])

theorem callPasswordCallback_safe (E : Env) (cb : JObject) (retry : Bool) (info : String)
    (w : World) (r : Option (List Nat)) (w' : World)
    (h : callPasswordCallback E cb retry info w = Outcome.returned r w') :
    w'.pending = none ∧
    (r ≠ none →
      (if retry then (E.callback cb).GetMethodID_getPWAgain
        else (E.callback cb).GetMethodID_getPWFirst) = none ∧
      (if retry then (E.callback cb).getPasswordAgain info
        else (E.callback cb).getPasswordFirstAttempt info) = CallbackResult.password ∧
      (E.callback cb).passwordClassFound = true ∧
      (E.callback cb).GetMethodID_getByteCopy = none ∧
      (E.callback cb).GetMethodID_clear = none ∧ (E.callback cb).getByteCopyThrows = none ∧
      (E.callback cb).clearThrows = none) := by
  unfold callPasswordCallback at h
  dsimp only at h
  generalize (if retry = true then "PW_CALLBACK_GET_PW_AGAIN_NAME"
    else "PW_CALLBACK_GET_PW_FIRST_NAME") = name at h
  cases hm : (if retry = true then (E.callback cb).GetMethodID_getPWAgain
      else (E.callback cb).GetMethodID_getPWFirst) with
  | some t =>
    rw [hm] at h
    dsimp only at h
    split_ifs at h
    obtain ⟨hr, hp, _⟩ := pwFinish_returned h
    subst hr
    simp [hp]
  | none =>
    rw [hm] at h
    dsimp only at h
    generalize hres : (if retry = true then (E.callback cb).getPasswordAgain info
      else (E.callback cb).getPasswordFirstAttempt info) = res at h
    split_ifs at h with c1 c2 c3 c4
    · obtain ⟨hr, hp, _⟩ := pwFinish_returned h
      subst hr
      simp [hp]
    · obtain ⟨hr, hp, _⟩ := pwFinish_returned h
      subst hr
      simp [hp]
    · obtain ⟨hr, hp, _⟩ := pwFinish_returned h
      subst hr
      simp [hp]
    · obtain ⟨hp, hx⟩ := extractPassword_safe E cb _ r w' h
      refine ⟨hp, fun hr => ⟨rfl, ?_, ?_, hx hr⟩⟩
      · exact not_not.mp c2
      · simpa using c3

theorem makePWCBInfo_some (E : Env) (slot : Slot) (w w1 : World) (info : String)
    (h : makePWCBInfo E slot w = Outcome.returned (some info) w1) :
    info = slot.tokenName ∧ E.NewStringUTF slot.tokenName = none ∧
    E.FindClass_TokenCallbackInfo = none ∧ E.GetMethodID_TokenCallbackInfo = none ∧
    E.NewObject_TokenCallbackInfo = none := by
  unfold makePWCBInfo jniFailure at h
  dsimp only at h
  cases h1 : E.NewStringUTF slot.tokenName <;>
    cases h2 : E.FindClass_TokenCallbackInfo <;>
    cases h3 : E.GetMethodID_TokenCallbackInfo <;>
    cases h4 : E.NewObject_TokenCallbackInfo <;>
    simp only [h1, h2, h3, h4] at h <;>
    (try split_ifs at h) <;>
    simp at h
  exact ⟨h.1.symm, rfl, rfl, rfl, rfl⟩

theorem makePWCBInfo_release (E : Env) (slot : Slot) (w : World) (hD : E.DEBUG = false) :
    ∃ info w1, makePWCBInfo E slot w = Outcome.returned info w1 := by
  unfold makePWCBInfo jniFailure
  dsimp only
  cases h1 : E.NewStringUTF slot.tokenName <;>
    cases h2 : E.FindClass_TokenCallbackInfo <;>
    cases h3 : E.GetMethodID_TokenCallbackInfo <;>
    cases h4 : E.NewObject_TokenCallbackInfo <;>
    simp [hD]

theorem extractPassword_release (E : Env) (cb : JObject) (w : World) (hD : E.DEBUG = false)
    (hb : (E.callback cb).byteCopy ≠ none) :
    ∃ r w', extractPassword E cb w = Outcome.returned r w' := by
  unfold extractPassword
  dsimp only
  cases h5 : (E.callback cb).byteCopy with
  | none => exact absurd h5 hb
  | some bytes =>
    cases h3 : (E.callback cb).getByteCopyThrows <;>
      cases h4 : (E.callback cb).clearThrows <;>
      simp only [hD, pwFinish_release E _ _ hD, Bool.false_and, Bool.false_eq_true, if_false,
        Option.isSome_none, Option.isSome_some, if_true, emit_pending, raise_pending,
        Option.isNone_some] <;>
      split_ifs <;> simp

theorem callPasswordCallback_release (E : Env) (cb : JObject) (retry : Bool) (info : String)
    (w : World) (hD : E.DEBUG = false) (hb : (E.callback cb).byteCopy ≠ none) :
    ∃ r w', callPasswordCallback E cb retry info w = Outcome.returned r w' := by
  unfold callPasswordCallback
  dsimp only
  simp only [hD, pwFinish_release E _ _ hD, Bool.false_and, Bool.false_eq_true, if_false]
  generalize (if retry = true then "PW_CALLBACK_GET_PW_AGAIN_NAME"
    else "PW_CALLBACK_GET_PW_FIRST_NAME") = name
  generalize (if retry = true then (E.callback cb).GetMethodID_getPWAgain
      else (E.callback cb).GetMethodID_getPWFirst) = found
  generalize (if retry = true then (E.callback cb).getPasswordAgain info
      else (E.callback cb).getPasswordFirstAttempt info) = res
  cases found with
  | some t => exact ⟨_, _, rfl⟩
  | none =>
    dsimp only
    split_ifs
    · exact ⟨_, _, rfl⟩
    · exact ⟨_, _, rfl⟩
    · exact ⟨_, _, rfl⟩
    · exact extractPassword_release E cb _ hD hb

theorem getPWFromCallback_safe (E : Env) (slot : Slot) (retry : Bool) (arg : Option JObject)
    (w : World) (hp : w.pending = none) (r : Option (List Nat)) (w' : World)
    (h : getPWFromCallback E (some slot) retry arg w = Outcome.returned r w') :
    w'.pending = none ∧
    (r ≠ none → ∃ cb, effectiveCallback arg w = some cb ∧
      passwordPathClear E slot retry cb = true) := by
  unfold getPWFromCallback at h
  dsimp only at h
  generalize hcb : (match arg with
    | some cb => some cb
    | none => w.globalPasswordCallback.map GlobalRef.obj) = eff at h
  have heff : effectiveCallback arg w = eff := hcb
  cases eff with
  | none =>
    simp only [Outcome.returned.injEq] at h
    obtain ⟨rfl, rfl⟩ := h
    exact ⟨hp, fun hr => absurd rfl hr⟩
  | some cb =>
    dsimp only at h
    split_ifs at h with hvm hat
    cases hm : makePWCBInfo E slot (w.emit Event.AttachCurrentThread) with
    | aborted w1 =>
      rw [hm] at h
      exact Outcome.noConfusion h
    | returned info w1 =>
      rw [hm] at h
      cases info with
      | none =>
        obtain ⟨hr, hp', _⟩ := pwFinish_returned h
        subst hr
        exact ⟨hp', fun hr => absurd rfl hr⟩
      | some pwcbInfo =>
        obtain ⟨hi, m1, m2, m3, m4⟩ := makePWCBInfo_some E slot _ w1 pwcbInfo hm
        subst hi
        obtain ⟨hp', hx⟩ := callPasswordCallback_safe E cb retry slot.tokenName w1 r w' h
        refine ⟨hp', fun hr => ⟨cb, heff, ?_⟩⟩
        obtain ⟨c1, c2, c3, c4, c5, c6, c7⟩ := hx hr
        simp [passwordPathClear, m1, m2, m3, m4, c1, c2, c3, c4, c5, c6, c7]

theorem getPWFromCallback_release (E : Env) (slot : Slot) (retry : Bool) (arg : Option JObject)
    (w : World) (hD : E.DEBUG = false) (hvm : w.JSS_javaVM = true)
    (hat : E.AttachCurrentThread = 0) (hb : ∀ o, (E.callback o).byteCopy ≠ none) :
    ∃ r w', getPWFromCallback E (some slot) retry arg w = Outcome.returned r w' := by
  unfold getPWFromCallback
  dsimp only
  generalize (match arg with
    | some cb => some cb
    | none => w.globalPasswordCallback.map GlobalRef.obj) = eff
  cases eff with
  | none => exact ⟨_, _, rfl⟩
  | some cb =>
    dsimp only
    simp only [hvm, hat, Bool.not_true, Bool.false_eq_true, if_false, ne_eq, not_true_eq_false]
    obtain ⟨info, w1, hm⟩ := makePWCBInfo_release E slot (w.emit Event.AttachCurrentThread) hD
    rw [hm]
    cases info with
    | none => exact ⟨_, _, pwFinish_release E _ _ hD⟩
    | some pwcbInfo => exact callPasswordCallback_release E cb retry pwcbInfo w1 hD (hb cb)

/-! ## The extraction of the password bytes -/

theorem extractPassword_extraction (E : Env) (cb : JObject) (w : World) (bytes : List Nat)
    (h1 : (E.callback cb).GetMethodID_getByteCopy = none)
    (h2 : (E.callback cb).GetMethodID_clear = none)
    (h3 : (E.callback cb).getByteCopyThrows = none)
    (h4 : (E.callback cb).clearThrows = none)
    (h5 : (E.callback cb).byteCopy = some bytes)
    (hp : w.pending = none) (hG : E.GetByteArrayElements = true) :
    extractPassword E cb w =
      pwFinish E (if E.PL_strdup then some (cString bytes) else none)
        ((((((((w.emit (Event.GetMethodID "PASSWORD_CLASS" "PW_GET_BYTE_COPY_NAME")).emit
          (Event.GetMethodID "PASSWORD_CLASS" "PW_CLEAR_NAME")).emit
          (Event.Password_getByteCopy cb)).emit (Event.Password_clear cb)).emit
          Event.GetByteArrayElements).emit Event.PL_strdup).emit Event.JSS_wipeCharArray).emit
          (Event.JSS_DerefByteArray (JSS_wipeCharArray bytes))) := by
  unfold extractPassword
  simp only [h1, h2, h3, h4, h5, hG, hp, Option.isSome_none, Bool.or_false, Bool.false_eq_true,
    if_false, if_true, emit_pending, Option.isNone_none]

theorem extractPassword_no_extraction (E : Env) (cb : JObject) (w : World)
    (h : ¬ ((E.callback cb).GetMethodID_getByteCopy = none ∧
      (E.callback cb).GetMethodID_clear = none ∧ (E.callback cb).getByteCopyThrows = none ∧
      (E.callback cb).clearThrows = none ∧ (E.callback cb).byteCopy ≠ none ∧
      w.pending = none ∧ E.GetByteArrayElements = true)) :
    Adds (fun e => e.isExtraction E = false) w (extractPassword E cb w).world := by
  unfold extractPassword Adds
  dsimp only
  cases h1 : (E.callback cb).GetMethodID_getByteCopy <;>
    cases h2 : (E.callback cb).GetMethodID_clear <;>
    cases h3 : (E.callback cb).getByteCopyThrows <;>
    cases h4 : (E.callback cb).clearThrows <;>
    cases h5 : (E.callback cb).byteCopy <;>
    cases hp : w.pending <;>
    cases hG : E.GetByteArrayElements <;>
    simp only [h1, h2, h3, h4, h5, hp, hG, not_true_eq_false, and_self, ne_eq,
      not_false_eq_true, and_true, and_false, reduceCtorEq] at h <;>
    simp [hp, newEvents, apply_ite Outcome.world, apply_ite World.trace, List.append_assoc] <;>
    (try split_ifs) <;>
    simp [Event.isExtraction, hG]

theorem wipe_length (bytes : List Nat) : (JSS_wipeCharArray bytes).length = bytes.length := by
  have h : (cString bytes).length ≤ bytes.length := (List.takeWhile_sublist _).length_le
  simp only [JSS_wipeCharArray, List.length_append, List.length_replicate, List.length_drop]
  omega

theorem wipe_zero (bytes : List Nat) (i : Nat) (hi : i < (cString bytes).length) :
    (JSS_wipeCharArray bytes)[i]? = some 0 := by
  unfold JSS_wipeCharArray
  rw [List.getElem?_append_left (by simpa using hi)]
  simp [List.getElem?_replicate, hi]

theorem releasedBuffers_adds {E : Env} {w w1 w2 : World}
    (h1 : Adds (fun e => e.isExtraction E = false) w w1) (h2 : w1.trace <+: w2.trace) :
    releasedBuffers w w2 = releasedBuffers w1 w2 := by
  obtain ⟨⟨l1, hl1⟩, hP⟩ := h1
  obtain ⟨l2, hl2⟩ := h2
  have e1 : newEvents w w1 = l1 := by simp [newEvents, ← hl1]
  have e2 : newEvents w1 w2 = l2 := by simp [newEvents, ← hl2]
  have e3 : newEvents w w2 = l1 ++ l2 := by simp [newEvents, ← hl2, ← hl1, List.append_assoc]
  rw [e1] at hP
  have e4 : l1.filterMap (fun e => match e with
      | Event.JSS_DerefByteArray content => some content
      | _ => none) = [] := by
    rw [List.filterMap_eq_nil_iff]
    intro e he
    have := hP e he
    cases e <;> simp_all [Event.isExtraction]
  unfold releasedBuffers
  rw [e3, e2, List.filterMap_append, e4, List.nil_append]

theorem extracted_lift {E : Env} {cb : JObject} {w w1 : World} {o : Outcome (Option (List Nat))}
    (h1 : Adds (fun e => e.isExtraction E = false) w w1) (h2 : Extracted E cb w1 o) :
    Extracted E cb w o := by
  obtain ⟨bytes, w', hb, ho, hp, hpre, hr⟩ := h2
  exact ⟨bytes, w', hb, ho, hp, h1.1.trans hpre, by rw [releasedBuffers_adds h1 hpre, hr]⟩

theorem extractPassword_cases (E : Env) (cb : JObject) (w : World) :
    Extracted E cb w (extractPassword E cb w) ∨
    Adds (fun e => e.isExtraction E = false) w (extractPassword E cb w).world := by
  by_cases h : (E.callback cb).GetMethodID_getByteCopy = none ∧
      (E.callback cb).GetMethodID_clear = none ∧ (E.callback cb).getByteCopyThrows = none ∧
      (E.callback cb).clearThrows = none ∧ (E.callback cb).byteCopy ≠ none ∧
      w.pending = none ∧ E.GetByteArrayElements = true
  · left
    obtain ⟨h1, h2, h3, h4, h5, hp, hG⟩ := h
    obtain ⟨bytes, h5⟩ := Option.ne_none_iff_exists'.mp h5
    obtain ⟨w', hf, hp', ht⟩ := pwFinish_clean E (if E.PL_strdup then some (cString bytes) else none)
      ((((((((w.emit (Event.GetMethodID "PASSWORD_CLASS" "PW_GET_BYTE_COPY_NAME")).emit
          (Event.GetMethodID "PASSWORD_CLASS" "PW_CLEAR_NAME")).emit
          (Event.Password_getByteCopy cb)).emit (Event.Password_clear cb)).emit
          Event.GetByteArrayElements).emit Event.PL_strdup).emit Event.JSS_wipeCharArray).emit
          (Event.JSS_DerefByteArray (JSS_wipeCharArray bytes))) (by simp [hp])
    refine ⟨bytes, w', h5, ?_, hp', ?_, ?_⟩
    · rw [extractPassword_extraction E cb w bytes h1 h2 h3 h4 h5 hp hG, hf]
    · rw [ht]
      simp [List.append_assoc]
    · simp [releasedBuffers, newEvents, ht, List.append_assoc]
  · right
    exact extractPassword_no_extraction E cb w h

theorem callPasswordCallback_cases (E : Env) (cb : JObject) (retry : Bool) (info : String)
    (w : World) :
    Extracted E cb w (callPasswordCallback E cb retry info w) ∨
    Adds (fun e => e.isExtraction E = false) w (callPasswordCallback E cb retry info w).world := by
  unfold callPasswordCallback
  dsimp only
  generalize (if retry = true then "PW_CALLBACK_GET_PW_AGAIN_NAME"
    else "PW_CALLBACK_GET_PW_FIRST_NAME") = name
  have hG : Adds (fun e => e.isExtraction E = false) w
      (w.emit (Event.GetMethodID "PW_CALLBACK_CLASS" name)) :=
    adds_emit _ _ rfl
  cases (if retry = true then (E.callback cb).GetMethodID_getPWAgain
      else (E.callback cb).GetMethodID_getPWFirst) with
  | some t =>
    dsimp only
    right
    refine adds_congr hG ?_
    split_ifs <;> simp
  | none =>
    dsimp only
    generalize (if retry = true then (E.callback cb).getPasswordAgain info
      else (E.callback cb).getPasswordFirstAttempt info) = res
    have hC : Adds (fun e => e.isExtraction E = false) w
        ((w.emit (Event.GetMethodID "PW_CALLBACK_CLASS" name)).emit
          (Event.CallObjectMethod cb name info)) :=
      adds_trans hG (adds_emit _ _ rfl)
    generalize hw3 : (match res with
      | CallbackResult.threw t =>
        ((w.emit (Event.GetMethodID "PW_CALLBACK_CLASS" name)).emit
          (Event.CallObjectMethod cb name info)).raise t
      | _ => (w.emit (Event.GetMethodID "PW_CALLBACK_CLASS" name)).emit
          (Event.CallObjectMethod cb name info)) = w3
    have ht3 : w3.trace = ((w.emit (Event.GetMethodID "PW_CALLBACK_CLASS" name)).emit
          (Event.CallObjectMethod cb name info)).trace := by
      subst hw3
      cases res <;> rfl
    have h3 := adds_congr hC ht3
    split_ifs
    · exact Or.inr (adds_congr h3 (by simp))
    · exact Or.inr (adds_congr h3 (by simp))
    · exact Or.inr (adds_congr h3 (by simp))
    · exact Or.inr (adds_congr h3 (by simp))
    · rcases extractPassword_cases E cb w3 with h | h
      · exact Or.inl (extracted_lift h3 h)
      · exact Or.inr (adds_trans h3 h)

theorem getPWFromCallback_cases (E : Env) (slot : Option Slot) (retry : Bool)
    (arg : Option JObject) (w : World) :
    (∃ cb, effectiveCallback arg w = some cb ∧
      Extracted E cb w (getPWFromCallback E slot retry arg w)) ∨
    Adds (fun e => e.isExtraction E = false) w (getPWFromCallback E slot retry arg w).world := by
  cases slot with
  | none =>
    right
    unfold getPWFromCallback
    dsimp only
    split_ifs <;> exact adds_refl rfl
  | some s =>
    unfold getPWFromCallback effectiveCallback
    dsimp only
    generalize (match arg with
          | some cb => some cb
          | none => w.globalPasswordCallback.map GlobalRef.obj) = eff
    cases eff with
    | none => exact Or.inr (adds_refl rfl)
    | some cb =>
      dsimp only
      split_ifs with hvm hat
      · exact Or.inr (adds_refl rfl)
      · exact Or.inr (adds_emit _ _ rfl)
      · have hA : Adds (fun e => e.isExtraction E = false) w
            (w.emit Event.AttachCurrentThread) := adds_emit _ _ rfl
        have hM : Adds (fun e => e.isExtraction E = false) (w.emit Event.AttachCurrentThread)
            (makePWCBInfo E s (w.emit Event.AttachCurrentThread)).world := by
          unfold Adds
          cases h1 : E.NewStringUTF s.tokenName <;>
            cases h2 : E.FindClass_TokenCallbackInfo <;>
            cases h3 : E.GetMethodID_TokenCallbackInfo <;>
            cases h4 : E.NewObject_TokenCallbackInfo <;>
            simp [makePWCBInfo, newEvents, h1, h2, h3, h4, List.append_assoc, Event.isExtraction]
        have hAM := adds_trans hA hM
        cases hm : makePWCBInfo E s (w.emit Event.AttachCurrentThread) with
        | aborted w1 =>
          rw [hm] at hAM
          exact Or.inr hAM
        | returned info w1 =>
          rw [hm] at hAM
          cases info with
          | none => exact Or.inr (adds_congr hAM (by simp))
          | some pwcbInfo =>
            rcases callPasswordCallback_cases E cb retry pwcbInfo w1 with h | h
            · exact Or.inl ⟨cb, rfl, extracted_lift hAM h⟩
            · exact Or.inr (adds_trans hAM h)

/-! ## The module list under `putModulesInVector` -/

@[simp] theorem emit_modules (w : World) (e : Event) : (w.emit e).modules = w.modules := rfl

@[simp] theorem emit_readLocks (w : World) (e : Event) : (w.emit e).readLocks = w.readLocks := rfl

@[simp] theorem raise_modules (w : World) (t : Throwable) : (w.raise t).modules = w.modules := rfl

@[simp] theorem raise_readLocks (w : World) (t : Throwable) :
    (w.raise t).readLocks = w.readLocks := rfl

@[simp] theorem reference_modules (i : Nat) (w : World) :
    (SECMOD_ReferenceModule i w).modules = adjustModule SECMODModule.ref i w.modules := rfl

@[simp] theorem reference_pending (i : Nat) (w : World) :
    (SECMOD_ReferenceModule i w).pending = w.pending := rfl

@[simp] theorem reference_readLocks (i : Nat) (w : World) :
    (SECMOD_ReferenceModule i w).readLocks = w.readLocks := rfl

@[simp] theorem destroy_modules (i : Nat) (w : World) :
    (SECMOD_DestroyModule i w).modules = adjustModule SECMODModule.unref i w.modules := rfl

@[simp] theorem destroy_pending (i : Nat) (w : World) :
    (SECMOD_DestroyModule i w).pending = w.pending := rfl

@[simp] theorem destroy_readLocks (i : Nat) (w : World) :
    (SECMOD_DestroyModule i w).readLocks = w.readLocks := rfl

@[simp] theorem getReadLock_modules (w : World) : (SECMOD_GetReadLock w).modules = w.modules := rfl

@[simp] theorem getReadLock_pending (w : World) : (SECMOD_GetReadLock w).pending = w.pending := rfl

@[simp] theorem getReadLock_readLocks (w : World) :
    (SECMOD_GetReadLock w).readLocks = w.readLocks + 1 := rfl

@[simp] theorem releaseReadLock_modules (w : World) :
    (SECMOD_ReleaseReadLock w).modules = w.modules := rfl

@[simp] theorem releaseReadLock_pending (w : World) :
    (SECMOD_ReleaseReadLock w).pending = w.pending := rfl

@[simp] theorem releaseReadLock_readLocks (w : World) :
    (SECMOD_ReleaseReadLock w).readLocks = w.readLocks - 1 := rfl

theorem unref_ref (m : SECMODModule) : m.ref.unref = m := by
  cases m
  simp [SECMODModule.ref, SECMODModule.unref]

theorem adjustModule_append (f : SECMODModule → SECMODModule) (pre : List SECMODModule)
    (m : SECMODModule) (post : List SECMODModule) :
    adjustModule f pre.length (pre ++ m :: post) = pre ++ f m :: post := by
  induction pre with
  | nil => rfl
  | cons p pre ih => simp [adjustModule, ih]

theorem adjustModule_unref_ref (i : Nat) (ms : List SECMODModule) :
    adjustModule SECMODModule.unref i (adjustModule SECMODModule.ref i ms) = ms := by
  induction ms generalizing i with
  | nil => cases i <;> rfl
  | cons m ms ih =>
    cases i with
    | zero => simp [adjustModule, unref_ref]
    | succ i => simp [adjustModule, ih]

/-- Adjusting the entries at `k` consecutive positions, one after the other,
adjusts exactly those entries. -/
theorem foldl_adjustModule (f : SECMODModule → SECMODModule) (k : Nat) :
    ∀ (pre post : List SECMODModule), k ≤ post.length →
      (List.range' pre.length k).foldl (fun ms j => adjustModule f j ms) (pre ++ post) =
        pre ++ (post.take k).map f ++ post.drop k := by
  induction k with
  | zero => intro pre post _; simp
  | succ k ih =>
    intro pre post hk
    cases post with
    | nil => simp at hk
    | cons m post =>
      have hk' : k ≤ post.length := by simpa using hk
      have h := ih (pre ++ [f m]) post hk'
      simp only [List.length_append, List.length_singleton, List.append_assoc,
        List.singleton_append] at h
      simp only [List.range'_succ, List.foldl_cons, adjustModule_append, List.take_succ_cons,
        List.map_cons, List.drop_succ_cons, List.append_assoc, List.cons_append]
      exact h

theorem foldl_adjustModule_zero (f : SECMODModule → SECMODModule) (k : Nat)
    (ms : List SECMODModule) (hk : k ≤ ms.length) :
    (List.range' 0 k).foldl (fun ms j => adjustModule f j ms) ms =
      (ms.take k).map f ++ ms.drop k := by
  simpa using foldl_adjustModule f k [] ms hk

theorem foldl_releaseHandle_modules (l : List Nat) :
    ∀ w : World, ((l.map PK11Module.mk).foldl releaseHandle w).modules =
      l.foldl (fun ms j => adjustModule SECMODModule.unref j ms) w.modules := by
  induction l with
  | nil => intro w; rfl
  | cons a l ih => intro w; simp [ih, releaseHandle]

theorem wrap_wrapped (E : Env) (i : Nat) (w : World) (h : E.wrap i = WrapResult.wrapped) :
    JSS_PK11_wrapPK11Module E i w =
      (some { ptr := i }, none, w.emit (Event.JSS_PK11_wrapPK11Module i)) := by
  simp [JSS_PK11_wrapPK11Module, h]

theorem wrap_failed (E : Env) (i : Nat) (w : World) (t : Throwable) (cleared : Bool)
    (h : E.wrap i = WrapResult.failed t cleared) :
    JSS_PK11_wrapPK11Module E i w =
      (none, if cleared then none else some i,
        if cleared then
          SECMOD_DestroyModule i ((w.emit (Event.JSS_PK11_wrapPK11Module i)).raise t)
        else (w.emit (Event.JSS_PK11_wrapPK11Module i)).raise t) := by
  cases cleared <;> simp [JSS_PK11_wrapPK11Module, h]

/-- The loop over `remaining` entries that all wrap. -/
theorem putModulesLoop_wrapped (E : Env) (remaining : Nat) :
    ∀ (i : Nat) (vector : List PK11Module) (w : World),
      (∀ j, i ≤ j → j < i + remaining → E.wrap j = WrapResult.wrapped) →
      ∃ w', putModulesLoop E i remaining vector w =
          Outcome.returned (vector ++ (List.range' i remaining).map PK11Module.mk, none) w' ∧
        w'.modules = (List.range' i remaining).foldl
          (fun ms j => adjustModule SECMODModule.ref j ms) w.modules ∧
        w'.pending = w.pending ∧ w'.readLocks = w.readLocks := by
  induction remaining with
  | zero =>
    intro i vector w _
    exact ⟨w, by simp [putModulesLoop], by simp, rfl, rfl⟩
  | succ n ih =>
    intro i vector w hw
    have hi : E.wrap i = WrapResult.wrapped := hw i (Nat.le_refl i) (by omega)
    obtain ⟨w', h1, h2, h3, h4⟩ := ih (i + 1) (vector ++ [{ ptr := i }])
      (((SECMOD_ReferenceModule i w).emit (Event.JSS_PK11_wrapPK11Module i)).emit
        (Event.Vector_addElement i))
      (fun j h1 h2 => hw j (by omega) (by omega))
    refine ⟨w', ?_, ?_, ?_, ?_⟩
    · rw [putModulesLoop]
      simp only [wrap_wrapped E i _ hi, Option.isSome_none, Bool.and_false, Bool.false_eq_true,
        if_false]
      rw [h1]
      simp [List.range'_succ]
    · rw [h2]
      simp [List.range'_succ]
    · rw [h3]
      simp
    · rw [h4]
      simp

/-- The loop when the entry `k` positions on fails to wrap and the ones
before it wrap: the call then goes to `finish`. -/
theorem putModulesLoop_fails (E : Env) (t : Throwable) (cleared : Bool)
    (hD : E.DEBUG = false ∨ cleared = true) (k : Nat) :
    ∀ (i remaining : Nat) (vector : List PK11Module) (w : World),
      (∀ j, i ≤ j → j < i + k → E.wrap j = WrapResult.wrapped) →
      E.wrap (i + k) = WrapResult.failed t cleared → k < remaining →
      ∃ w', putModulesLoop E i remaining vector w =
          Outcome.returned (vector ++ (List.range' i k).map PK11Module.mk,
            if cleared then none else some (i + k)) w' ∧
        w'.modules = (if cleared then
            (List.range' i k).foldl (fun ms j => adjustModule SECMODModule.ref j ms) w.modules
          else adjustModule SECMODModule.ref (i + k)
            ((List.range' i k).foldl (fun ms j => adjustModule SECMODModule.ref j ms) w.modules)) ∧
        w'.pending = some t ∧ w'.readLocks = w.readLocks := by
  induction k with
  | zero =>
    intro i remaining vector w _ hf hr
    obtain ⟨n, rfl⟩ : ∃ n, remaining = n + 1 := ⟨remaining - 1, by omega⟩
    rw [Nat.add_zero] at hf
    rw [putModulesLoop]
    simp only [wrap_failed E i _ t cleared hf]
    cases cleared with
    | true =>
      refine ⟨SECMOD_DestroyModule i
        (((SECMOD_ReferenceModule i w).emit (Event.JSS_PK11_wrapPK11Module i)).raise t),
        by simp, ?_, ?_, ?_⟩
      · simp [adjustModule_unref_ref]
      · simp
      · simp
    | false =>
      have hD' : E.DEBUG = false := by simpa using hD
      refine ⟨((SECMOD_ReferenceModule i w).emit (Event.JSS_PK11_wrapPK11Module i)).raise t,
        by simp [hD'], ?_, ?_, ?_⟩
      · simp
      · simp
      · simp
  | succ k ih =>
    intro i remaining vector w hw hf hr
    obtain ⟨n, rfl⟩ : ∃ n, remaining = n + 1 := ⟨remaining - 1, by omega⟩
    have hi : E.wrap i = WrapResult.wrapped := hw i (Nat.le_refl i) (by omega)
    obtain ⟨w', h1, h2, h3, h4⟩ := ih (i + 1) n (vector ++ [{ ptr := i }])
      (((SECMOD_ReferenceModule i w).emit (Event.JSS_PK11_wrapPK11Module i)).emit
        (Event.Vector_addElement i))
      (fun j h1 h2 => hw j (by omega) (by omega))
      (by rw [← hf]; congr 1; omega) (by omega)
    have e : i + 1 + k = i + (k + 1) := by omega
    rw [e] at h1 h2
    refine ⟨w', ?_, ?_, h3, ?_⟩
    · rw [putModulesLoop]
      simp only [wrap_wrapped E i _ hi, Option.isSome_none, Bool.and_false, Bool.false_eq_true,
        if_false]
      rw [h1]
      simp [List.range'_succ]
    · rw [h2]
      simp [List.range'_succ]
    · rw [h4]
      simp

/-! ## Theorems -/

/-- C1: a first call of `initializeAllNative2` with all required strings
non-null, in which `GetJavaVM` succeeds, completes successfully: it returns
and no exception is pending.  Then that call has set `initialized`, and a
second call with all required strings non-null, whatever its other arguments
and whatever the libraries would answer, returns with
`ALREADY_INITIALIZED_EXCEPTION` pending and is otherwise the identity on the
world: the trace gains no call and `initialized` stays as the first call left
it. -/
theorem C1_second_call_already_initialized (E1 E2 : Env) (a1 a2 : InitArgs) (w0 w1 : World)
    (hreq1 : requiredStringMissing a1 = false) (hreq2 : requiredStringMissing a2 = false)
    (hvm : E1.GetJavaVM = 0)
    (hfirst : initializeAllNative2 E1 a1 w0 = Outcome.returned () w1)
    (hnoerr : w1.pending = none) :
    w1.initialized = true ∧
      initializeAllNative2 E2 a2 w1 =
        Outcome.returned () { w1 with pending := some { cls := ExcClass.ALREADY_INITIALIZED_EXCEPTION } } ∧
      (initializeAllNative2 E2 a2 w1).world.trace = w1.trace ∧
      newEvents w1 (initializeAllNative2 E2 a2 w1).world = [] ∧
      (initializeAllNative2 E2 a2 w1).world.initialized = w1.initialized := by
  have hinit : w1.initialized = true :=
    init_success_sets_initialized E1 a1 w0 w1 hreq1 hvm hfirst hnoerr
  have h : initializeAllNative2 E2 a2 w1 =
      Outcome.returned () { w1 with pending := some { cls := ExcClass.ALREADY_INITIALIZED_EXCEPTION } } := by
    simp [initializeAllNative2, hreq2, hinit, JSS_throw]
  rw [h]
  exact ⟨hinit, rfl, rfl, by simp [newEvents, Outcome.world], rfl⟩

/-- Witness of C1: a full initialization from the initial world, then a second
call that asks for a Java-only initialization. -/
theorem C1_second_call_already_initialized_witness :
    initializeAllNative2 {} {} {} = Outcome.returned () initializedWorld ∧
      initializedWorld.pending = none ∧
      initializedWorld.initialized = true ∧
      initializeAllNative2 {} { initializeJavaOnly := true } initializedWorld =
        Outcome.returned ()
          { initializedWorld with pending := some { cls := ExcClass.ALREADY_INITIALIZED_EXCEPTION } } ∧
      (initializeAllNative2 {} { initializeJavaOnly := true } initializedWorld).world.trace =
        initializedWorld.trace ∧
      newEvents initializedWorld
        (initializeAllNative2 {} { initializeJavaOnly := true } initializedWorld).world = [] ∧
      (initializeAllNative2 {} { initializeJavaOnly := true } initializedWorld).world.initialized =
        initializedWorld.initialized :=
  ⟨rfl, rfl,
    C1_second_call_already_initialized {} {} {} { initializeJavaOnly := true } {} initializedWorld
      rfl rfl rfl rfl rfl⟩

/-- C2, counterexample: in a build without `DEBUG`, a full initialization from
the initial world with a five-byte manufacturer string raises nothing, hands
the five bytes to `PK11_ConfigurePKCS11`, calls `NSS_InitReadWrite` and ends
initialized. -/
theorem C2_wrong_length_counterexample :
    (({} : World).initialized = false ∧ shortManuArgs.initializeJavaOnly = false ∧
      strlen shortManuArgs.manuString = 5) ∧
    initializeAllNative2 {} shortManuArgs {} =
      Outcome.returned () (initializeAllNative2 {} shortManuArgs {}).world ∧
    (initializeAllNative2 {} shortManuArgs {}).world.pending = none ∧
    (initializeAllNative2 {} shortManuArgs {}).world.initialized = true ∧
    (initializeAllNative2 {} shortManuArgs {}).world.trace =
      [Event.GetJavaVM, Event.JSS_initErrcodeTranslationTable,
       Event.PK11_ConfigurePKCS11 (some "short") shortManuArgs.libraryString shortManuArgs.tokString
         shortManuArgs.keyTokString shortManuArgs.slotString shortManuArgs.keySlotString
         shortManuArgs.fipsString shortManuArgs.fipsKeyString 0 false,
       Event.NSS_InitReadWrite (some "."), Event.JSS_RegisterDynamicOids, Event.PK11_SetPasswordFunc,
       Event.CERT_DisableOCSPChecking, Event.CERT_DisableOCSPDefaultResponder,
       Event.NSS_SetDomesticPolicy] := by
  refine ⟨⟨rfl, rfl, by decide⟩, rfl, rfl, rfl, rfl⟩

/-- C2, as amended: a full initialization from the uninitialized state that
gets as far as the PKCS #11 strings (the JavaVM was captured, no exception is
pending) with one of the eight lengths wrong never raises an error for it.  In
a `DEBUG` build the failed `PR_ASSERT` aborts the process before
`PK11_ConfigurePKCS11` or a native init entry point is called, with nothing
pending and `initialized` still unset.  In a build without `DEBUG` the lengths
are not looked at: `PK11_ConfigurePKCS11` is called with the eight strings as
given, and a native init entry point is called next. -/
theorem C2_wrong_length_not_validated (E : Env) (a : InitArgs) (w : World)
    (h0 : w.initialized = false) (hp : w.pending = none)
    (hjo : a.initializeJavaOnly = false) (hreq : requiredStringMissing a = false)
    (hvm : E.GetJavaVM = 0) (hlen : pkcs11LengthsOK a = false) :
    (E.DEBUG = true →
      initializeAllNative2 E a w = Outcome.aborted
        { w with JSS_javaVM := true,
                 trace := w.trace ++ [Event.GetJavaVM, Event.JSS_initErrcodeTranslationTable] } ∧
      (initializeAllNative2 E a w).world.pending = none ∧
      (initializeAllNative2 E a w).world.initialized = false) ∧
    (E.DEBUG = false →
      ∃ w1 e rest, initializeAllNative2 E a w = Outcome.returned () w1 ∧
        e.isNativeInit = true ∧
        w1.trace = w.trace ++
          [Event.GetJavaVM, Event.JSS_initErrcodeTranslationTable,
           Event.PK11_ConfigurePKCS11 a.manuString a.libraryString a.tokString a.keyTokString
             a.slotString a.keySlotString a.fipsString a.fipsKeyString 0 false, e] ++ rest) := by
  constructor
  · intro hd
    have h : initializeAllNative2 E a w = Outcome.aborted
        { w with JSS_javaVM := true,
                 trace := w.trace ++ [Event.GetJavaVM, Event.JSS_initErrcodeTranslationTable] } := by
      simp [initializeAllNative2, hreq, h0, hvm, hjo, hp, hd, hlen, World.emit]
    rw [h]
    exact ⟨rfl, hp, h0⟩
  · intro hd
    let wc : World :=
      (({ w.emit Event.GetJavaVM with JSS_javaVM := true }.emit Event.JSS_initErrcodeTranslationTable).emit
        (Event.PK11_ConfigurePKCS11 a.manuString a.libraryString a.tokString a.keyTokString
          a.slotString a.keySlotString a.fipsString a.fipsKeyString 0 false))
    obtain ⟨e, he, hemit, _⟩ := nativeInit_event E a wc
    obtain ⟨rest, hrest⟩ := afterNativeInit_trace_grows E a (nativeInit E a wc).1 (nativeInit E a wc).2
    refine ⟨afterNativeInit E a (nativeInit E a wc).1 (nativeInit E a wc).2, e, rest, ?_, he, ?_⟩
    · simp only [initializeAllNative2, hreq, h0, hvm, hjo, hd, JSS_RefJString]
      simp [hp, wc]
    · rw [← hrest, hemit]
      simp [wc, List.append_assoc]

/-- Witness of C2 as amended: the five-byte manufacturer string from the
initial world, in a `DEBUG` build and in a build without `DEBUG`. -/
theorem C2_wrong_length_not_validated_witness :
    (initializeAllNative2 { DEBUG := true } shortManuArgs {} = Outcome.aborted
        { JSS_javaVM := true, trace := [Event.GetJavaVM, Event.JSS_initErrcodeTranslationTable] } ∧
      (initializeAllNative2 { DEBUG := true } shortManuArgs {}).world.pending = none ∧
      (initializeAllNative2 { DEBUG := true } shortManuArgs {}).world.initialized = false) ∧
    (∃ w1 e rest, initializeAllNative2 {} shortManuArgs {} = Outcome.returned () w1 ∧
        e.isNativeInit = true ∧
        w1.trace = ({} : World).trace ++
          [Event.GetJavaVM, Event.JSS_initErrcodeTranslationTable,
           Event.PK11_ConfigurePKCS11 shortManuArgs.manuString shortManuArgs.libraryString
             shortManuArgs.tokString shortManuArgs.keyTokString shortManuArgs.slotString
             shortManuArgs.keySlotString shortManuArgs.fipsString shortManuArgs.fipsKeyString 0 false,
           e] ++ rest) :=
  ⟨(C2_wrong_length_not_validated { DEBUG := true } shortManuArgs {} rfl rfl rfl rfl rfl rfl).1 rfl,
   (C2_wrong_length_not_validated {} shortManuArgs {} rfl rfl rfl rfl rfl rfl).2 rfl⟩

/-- C3: from the uninitialized state, with the required strings non-null,
`initializeJavaOnly` set and the JavaVM captured, `initializeAllNative2`
returns; all it does is capture the JavaVM, set up the error-code table and
set `initialized`.  No exception is raised (the pending exception is what it
was on entry), the OCSP settings are untouched and the trace gains no call of
`PK11_ConfigurePKCS11`, of a native init entry point, of `PK11_SetPasswordFunc`,
of an OCSP function or of `NSS_SetDomesticPolicy`, whatever the other
arguments are. -/
theorem C3_java_only_touches_no_native_state (E : Env) (a : InitArgs) (w : World)
    (hreq : requiredStringMissing a = false) (h0 : w.initialized = false)
    (hjo : a.initializeJavaOnly = true) (hvm : E.GetJavaVM = 0) :
    initializeAllNative2 E a w = Outcome.returned ()
        { w with initialized := true, JSS_javaVM := true,
                 trace := w.trace ++ [Event.GetJavaVM, Event.JSS_initErrcodeTranslationTable] } ∧
      (initializeAllNative2 E a w).world.initialized = true ∧
      (initializeAllNative2 E a w).world.pending = w.pending ∧
      (initializeAllNative2 E a w).world.ocsp = w.ocsp ∧
      newEvents w (initializeAllNative2 E a w).world =
        [Event.GetJavaVM, Event.JSS_initErrcodeTranslationTable] := by
  have h : initializeAllNative2 E a w = Outcome.returned ()
      { w with initialized := true, JSS_javaVM := true,
               trace := w.trace ++ [Event.GetJavaVM, Event.JSS_initErrcodeTranslationTable] } := by
    simp [initializeAllNative2, hreq, h0, hvm, hjo, World.emit]
  rw [h]
  refine ⟨rfl, rfl, rfl, rfl, ?_⟩
  simp [newEvents, Outcome.world]

/-- Witness of C3: a Java-only initialization from the initial world, in a
`DEBUG` build, with a five-byte manufacturer string. -/
theorem C3_java_only_touches_no_native_state_witness :
    initializeAllNative2 { DEBUG := true } { initializeJavaOnly := true, manuString := some "short" } {} =
        Outcome.returned ()
          { initialized := true, JSS_javaVM := true,
            trace := [Event.GetJavaVM, Event.JSS_initErrcodeTranslationTable] } ∧
      (initializeAllNative2 { DEBUG := true }
        { initializeJavaOnly := true, manuString := some "short" } {}).world.initialized = true ∧
      (initializeAllNative2 { DEBUG := true }
        { initializeJavaOnly := true, manuString := some "short" } {}).world.pending = none ∧
      (initializeAllNative2 { DEBUG := true }
        { initializeJavaOnly := true, manuString := some "short" } {}).world.ocsp = {} ∧
      newEvents {} (initializeAllNative2 { DEBUG := true }
        { initializeJavaOnly := true, manuString := some "short" } {}).world =
        [Event.GetJavaVM, Event.JSS_initErrcodeTranslationTable] :=
  C3_java_only_touches_no_native_state { DEBUG := true }
    { initializeJavaOnly := true, manuString := some "short" } {} rfl rfl rfl rfl

/-- C5: a full initialization that reaches the native init (required strings
non-null, uninitialized, JavaVM captured, nothing pending, no failed length
assertion) calls exactly one native init entry point.  When `certPrefix`,
`keyPrefix` and `secmodName` are all `NULL` and none of the nine flags is set,
it is `NSS_Init` for `readOnly` and `NSS_InitReadWrite` otherwise; in every
other case it is `NSS_Initialize`. -/
theorem C5_native_init_entry_point (E : Env) (a : InitArgs) (w : World)
    (hreq : requiredStringMissing a = false) (h0 : w.initialized = false) (hvm : E.GetJavaVM = 0)
    (hjo : a.initializeJavaOnly = false) (hp : w.pending = none)
    (hd : E.DEBUG = false ∨ pkcs11LengthsOK a = true) :
    ((a.certPrefix = none ∧ a.keyPrefix = none ∧ a.secmodName = none ∧
        a.noCertDB = false ∧ a.noModDB = false ∧ a.forceOpen = false ∧ a.noRootInit = false ∧
        a.optimizeSpace = false ∧ a.PK11ThreadSafe = false ∧ a.PK11Reload = false ∧
        a.noPK11Finalize = false ∧ a.cooperate = false) →
      (a.readOnly = true →
        nativeInitCalls w (initializeAllNative2 E a w).world = [Event.NSS_Init a.configDir]) ∧
      (a.readOnly = false →
        nativeInitCalls w (initializeAllNative2 E a w).world = [Event.NSS_InitReadWrite a.configDir])) ∧
    (¬(a.certPrefix = none ∧ a.keyPrefix = none ∧ a.secmodName = none ∧
        a.noCertDB = false ∧ a.noModDB = false ∧ a.forceOpen = false ∧ a.noRootInit = false ∧
        a.optimizeSpace = false ∧ a.PK11ThreadSafe = false ∧ a.PK11Reload = false ∧
        a.noPK11Finalize = false ∧ a.cooperate = false) →
      nativeInitCalls w (initializeAllNative2 E a w).world =
        [Event.NSS_Initialize a.configDir a.certPrefix a.keyPrefix a.secmodName (initFlags E a)]) := by
  have hcalls : nativeInitCalls w (initializeAllNative2 E a w).world =
      [if extendedInit a then
        Event.NSS_Initialize a.configDir a.certPrefix a.keyPrefix a.secmodName (initFlags E a)
       else if a.readOnly then Event.NSS_Init a.configDir
       else Event.NSS_InitReadWrite a.configDir] := by
    rw [init_path_full E a w hreq h0 hvm hjo hp hd]
    have he0 : Event.isNativeInit (if extendedInit a then
        Event.NSS_Initialize a.configDir a.certPrefix a.keyPrefix a.secmodName (initFlags E a)
       else if a.readOnly then Event.NSS_Init a.configDir
       else Event.NSS_InitReadWrite a.configDir) = true := by
      split_ifs <;> rfl
    have h1 := afterNativeInit_no_nativeInit E a (nativeInit E a (afterPKCS11 a w)).1
      (nativeInit E a (afterPKCS11 a w)).2
    have h2 := trace_eq_append_newEvents _ _ (afterNativeInit_trace_grows E a
      (nativeInit E a (afterPKCS11 a w)).1 (nativeInit E a (afterPKCS11 a w)).2)
    simp only [nativeInit_snd] at h1 h2
    simp only [nativeInit_snd, nativeInitCalls, Outcome.world]
    generalize (if extendedInit a then
        Event.NSS_Initialize a.configDir a.certPrefix a.keyPrefix a.secmodName (initFlags E a)
       else if a.readOnly then Event.NSS_Init a.configDir
       else Event.NSS_InitReadWrite a.configDir) = e0 at he0 h1 h2 ⊢
    generalize afterNativeInit E a (nativeInit E a (afterPKCS11 a w)).1
      ((afterPKCS11 a w).emit e0) = F at h1 h2 ⊢
    generalize newEvents ((afterPKCS11 a w).emit e0) F = N at h1 h2
    have g1 : Event.isNativeInit Event.GetJavaVM = false := rfl
    have g2 : Event.isNativeInit Event.JSS_initErrcodeTranslationTable = false := rfl
    have g3 : Event.isNativeInit (Event.PK11_ConfigurePKCS11 a.manuString a.libraryString
        a.tokString a.keyTokString a.slotString a.keySlotString a.fipsString a.fipsKeyString
        0 false) = false := rfl
    simp only [newEvents, h2, emit_trace, afterPKCS11_trace, List.append_assoc, List.drop_left,
      List.cons_append, List.nil_append, List.filter_cons, List.filter_append, g1, g2, g3, he0, h1]
    simp
  have hext : extendedInit a = false ↔
      (a.certPrefix = none ∧ a.keyPrefix = none ∧ a.secmodName = none ∧
        a.noCertDB = false ∧ a.noModDB = false ∧ a.forceOpen = false ∧ a.noRootInit = false ∧
        a.optimizeSpace = false ∧ a.PK11ThreadSafe = false ∧ a.PK11Reload = false ∧
        a.noPK11Finalize = false ∧ a.cooperate = false) := by
    unfold extendedInit
    cases a.certPrefix <;> cases a.keyPrefix <;> cases a.secmodName <;>
      simp [Bool.or_eq_false_iff, and_assoc]
  rw [hcalls]
  refine ⟨fun hc => ?_, fun hc => ?_⟩
  · have h := hext.mpr hc
    constructor
    · intro hro
      simp [h, hro]
    · intro hro
      simp [h, hro]
  · have h : extendedInit a = true := by
      cases h : extendedInit a
      · exact absurd (hext.mp h) hc
      · rfl
    simp [h]

/-- Witness of C5: from the initial world, the default arguments take the
simple read-write entry point, and the same arguments with `noModDB` set take
`NSS_Initialize`. -/
theorem C5_native_init_entry_point_witness :
    nativeInitCalls {} (initializeAllNative2 {} {} {}).world = [Event.NSS_InitReadWrite (some ".")] ∧
    nativeInitCalls {} (initializeAllNative2 {} { noModDB := true, readOnly := true } {}).world =
      [Event.NSS_Initialize (some ".") none none none 5] :=
  ⟨((C5_native_init_entry_point {} {} {} rfl rfl rfl rfl rfl (Or.inl rfl)).1
      ⟨rfl, rfl, rfl, rfl, rfl, rfl, rfl, rfl, rfl, rfl, rfl, rfl⟩).2 rfl,
   (C5_native_init_entry_point {} { noModDB := true, readOnly := true } {} rfl rfl rfl rfl rfl
      (Or.inl rfl)).2 (by decide)⟩

/-- C6: `ConfigureOCSP` with checking enabled, a responder URL and no
responder nickname returns `SECFailure` with a `GeneralSecurityException`
pending that says the nickname must be set.  The only library call it makes
is `CERT_DisableOCSPChecking`: no certificate is looked up, in the database or
on a token, and the default responder is not set, so the OCSP settings are the
prior ones with checking off. -/
theorem C6_url_without_nickname_fails_before_lookup (E : Env) (u : String) (w : World) :
    (ConfigureOCSP E true (some u) none w).1 = SECStatus.SECFailure ∧
    (ConfigureOCSP E true (some u) none w).2.pending =
      some { cls := ExcClass.GENERAL_SECURITY_EXCEPTION,
             msg := some "if OCSP responderURL is set, the Responder Cert nickname must be set" } ∧
    newEvents w (ConfigureOCSP E true (some u) none w).2 = [Event.CERT_DisableOCSPChecking] ∧
    (ConfigureOCSP E true (some u) none w).2.ocsp = { w.ocsp with checking := false } := by
  simp [ConfigureOCSP, configureResponder, JSS_RefJString, newEvents]

/-- C7: `ConfigureOCSP` with checking disabled and neither a responder URL nor
a nickname returns `SECSuccess` from every world, raises nothing and leaves
checking off and the default responder disabled; a second such call succeeds
again and changes nothing but the trace. -/
theorem C7_disable_all_is_idempotent (E E' : Env) (w : World) :
    (ConfigureOCSP E false none none w).1 = SECStatus.SECSuccess ∧
    (ConfigureOCSP E false none none w).2.ocsp.checking = false ∧
    (ConfigureOCSP E false none none w).2.ocsp.useDefaultResponder = false ∧
    (ConfigureOCSP E false none none w).2.pending = w.pending ∧
    (ConfigureOCSP E' false none none (ConfigureOCSP E false none none w).2).1 = SECStatus.SECSuccess ∧
    { (ConfigureOCSP E' false none none (ConfigureOCSP E false none none w).2).2 with
        trace := (ConfigureOCSP E false none none w).2.trace } = (ConfigureOCSP E false none none w).2 := by
  simp [ConfigureOCSP, configureResponder, JSS_RefJString, CERT_DisableOCSPChecking,
    CERT_DisableOCSPDefaultResponder, World.emit]

/-- C8: `ConfigureOCSP` with a responder URL and a nickname first calls
`CERT_FindCertByNickname`; it calls `PK11_FindCertFromNickname` next when that
found nothing, and not at all when it found the certificate.  When neither
lookup finds the certificate the call returns `SECFailure` with a
`GeneralSecurityException` pending that says the certificate was not found,
having made no other call, and the default responder URL, its nickname and the
use-default-responder flag are what they were before the call. -/
theorem C8_responder_cert_lookup (E : Env) (en : Bool) (u n : String) (w : World) :
    (∃ rest, newEvents w (ConfigureOCSP E en (some u) (some n) w).2 =
      [Event.CERT_DisableOCSPChecking, Event.CERT_FindCertByNickname (some n)] ++ rest) ∧
    (E.CERT_FindCertByNickname (some n) = true →
      ∀ x, Event.PK11_FindCertFromNickname x ∉ newEvents w (ConfigureOCSP E en (some u) (some n) w).2) ∧
    (E.CERT_FindCertByNickname (some n) = false →
      ∃ rest, newEvents w (ConfigureOCSP E en (some u) (some n) w).2 =
        [Event.CERT_DisableOCSPChecking, Event.CERT_FindCertByNickname (some n),
         Event.PK11_FindCertFromNickname (some n)] ++ rest) ∧
    (E.CERT_FindCertByNickname (some n) = false → E.PK11_FindCertFromNickname (some n) = false →
      (ConfigureOCSP E en (some u) (some n) w).1 = SECStatus.SECFailure ∧
      (ConfigureOCSP E en (some u) (some n) w).2.pending =
        some { cls := ExcClass.GENERAL_SECURITY_EXCEPTION,
               msg := some "Unable to find the OCSP Responder Certificate nickname." } ∧
      newEvents w (ConfigureOCSP E en (some u) (some n) w).2 =
        [Event.CERT_DisableOCSPChecking, Event.CERT_FindCertByNickname (some n),
         Event.PK11_FindCertFromNickname (some n)] ∧
      (ConfigureOCSP E en (some u) (some n) w).2.ocsp.defaultResponderURL = w.ocsp.defaultResponderURL ∧
      (ConfigureOCSP E en (some u) (some n) w).2.ocsp.defaultResponderNickname =
        w.ocsp.defaultResponderNickname ∧
      (ConfigureOCSP E en (some u) (some n) w).2.ocsp.useDefaultResponder =
        w.ocsp.useDefaultResponder) := by
  cases h1 : E.CERT_FindCertByNickname (some n) <;>
    cases h2 : E.PK11_FindCertFromNickname (some n) <;>
    cases h3 : E.CERT_SetOCSPDefaultResponder (some u) (some n) <;>
    cases en <;>
    simp [ConfigureOCSP, configureResponder, JSS_RefJString, newEvents, h1, h2, h3,
      List.append_assoc, setResponder_ocsp_success, setResponder_ocsp_failure]

/-- Witness of C8: with the default library answers neither lookup finds a
certificate. -/
theorem C8_responder_cert_lookup_witness :
    (ConfigureOCSP {} true (some "http://ocsp.example.org") (some "responder") {}).1
      = SECStatus.SECFailure ∧
    (ConfigureOCSP {} true (some "http://ocsp.example.org") (some "responder") {}).2.pending =
      some { cls := ExcClass.GENERAL_SECURITY_EXCEPTION,
             msg := some "Unable to find the OCSP Responder Certificate nickname." } ∧
    newEvents {} (ConfigureOCSP {} true (some "http://ocsp.example.org") (some "responder") {}).2 =
      [Event.CERT_DisableOCSPChecking, Event.CERT_FindCertByNickname (some "responder"),
       Event.PK11_FindCertFromNickname (some "responder")] ∧
    (ConfigureOCSP {} true (some "http://ocsp.example.org") (some "responder") {}).2.ocsp.defaultResponderURL
      = none ∧
    (ConfigureOCSP {} true (some "http://ocsp.example.org") (some "responder")
      {}).2.ocsp.defaultResponderNickname = none ∧
    (ConfigureOCSP {} true (some "http://ocsp.example.org") (some "responder")
      {}).2.ocsp.useDefaultResponder = false :=
  (C8_responder_cert_lookup {} true "http://ocsp.example.org" "responder" {}).2.2.2 rfl rfl

/-- C9: with a slot, no callback in `arg` and no default callback registered,
`getPWFromCallback` returns `NULL` for either value of `retry` and leaves the
world as it found it: the thread is not attached, no `TokenCallbackInfo` is
built and no method is called. -/
theorem C9_no_callback_returns_null (E : Env) (slot : Slot) (retry : Bool) (w : World)
    (hnone : w.globalPasswordCallback = none) :
    getPWFromCallback E (some slot) retry none w = Outcome.returned none w ∧
    newEvents w (getPWFromCallback E (some slot) retry none w).world = [] := by
  have h : getPWFromCallback E (some slot) retry none w = Outcome.returned none w := by
    simp [getPWFromCallback, hnone]
  rw [h]
  exact ⟨rfl, by simp [newEvents, Outcome.world]⟩

/-- Witness of C9: a retry on an initialized world with no default callback,
in a `DEBUG` build. -/
theorem C9_no_callback_returns_null_witness :
    getPWFromCallback { DEBUG := true } (some { tokenName := "token" }) true none initializedWorld =
      Outcome.returned none initializedWorld ∧
    newEvents initializedWorld
      (getPWFromCallback { DEBUG := true } (some { tokenName := "token" }) true none
        initializedWorld).world = [] :=
  C9_no_callback_returns_null { DEBUG := true } { tokenName := "token" } true initializedWorld rfl

/-- C10: register callback `A` and then a different callback `B` with
`JSS_setPasswordCallback`, `NewGlobalRef` succeeding both times, in a world
whose registered reference (if any) was issued earlier.  Then `A` is the default
after the first call and `B` after the second; the second call deletes the
global reference of `A` and creates one for `B`, and over the two calls that
reference is deleted exactly once.  A following `getPWFromCallback` with
`arg = NULL` never runs Java code of `A`, whatever the libraries answer; and
when the JavaVM was captured, the thread attaches, the `TokenCallbackInfo` is
built and the method is found, it calls the method of `B` with the name of the
slot's token. -/
theorem C10_second_default_callback_replaces_first (E1 E2 E3 : Env) (A B : JObject) (slot : Slot)
    (retry : Bool) (w0 : World)
    (hAB : A ≠ B) (h1 : E1.NewGlobalRef = true) (h2 : E2.NewGlobalRef = true)
    (hwf : ∀ r, w0.globalPasswordCallback = some r → r.id < w0.nextRef) :
    (JSS_setPasswordCallback E1 (some A) w0).globalPasswordCallback =
      some { id := w0.nextRef, obj := A } ∧
    (JSS_setPasswordCallback E2 (some B) (JSS_setPasswordCallback E1 (some A) w0)).globalPasswordCallback
      = some { id := w0.nextRef + 1, obj := B } ∧
    newEvents (JSS_setPasswordCallback E1 (some A) w0)
        (JSS_setPasswordCallback E2 (some B) (JSS_setPasswordCallback E1 (some A) w0)) =
      [Event.DeleteGlobalRef { id := w0.nextRef, obj := A }, Event.NewGlobalRef B] ∧
    (newEvents w0
        (JSS_setPasswordCallback E2 (some B) (JSS_setPasswordCallback E1 (some A) w0))).count
      (Event.DeleteGlobalRef { id := w0.nextRef, obj := A }) = 1 ∧
    (∀ e ∈ newEvents
        (JSS_setPasswordCallback E2 (some B) (JSS_setPasswordCallback E1 (some A) w0))
        (getPWFromCallback E3 (some slot) retry none
          (JSS_setPasswordCallback E2 (some B) (JSS_setPasswordCallback E1 (some A) w0))).world,
      e.callee ≠ some A) ∧
    (w0.JSS_javaVM = true → E3.AttachCurrentThread = 0 →
      E3.NewStringUTF slot.tokenName = none → E3.FindClass_TokenCallbackInfo = none →
      E3.GetMethodID_TokenCallbackInfo = none → E3.NewObject_TokenCallbackInfo = none →
      (if retry then (E3.callback B).GetMethodID_getPWAgain
        else (E3.callback B).GetMethodID_getPWFirst) = none →
      Event.CallObjectMethod B (pwMethodName retry) slot.tokenName ∈
        newEvents
          (JSS_setPasswordCallback E2 (some B) (JSS_setPasswordCallback E1 (some A) w0))
          (getPWFromCallback E3 (some slot) retry none
            (JSS_setPasswordCallback E2 (some B) (JSS_setPasswordCallback E1 (some A) w0))).world) := by
  have hA := setPasswordCallback_callback E1 A w0 h1
  have hAn := setPasswordCallback_nextRef E1 A w0 h1
  have hAv := setPasswordCallback_javaVM E1 A w0 h1
  have hAt := setPasswordCallback_trace E1 A w0 h1
  have hB := setPasswordCallback_callback E2 B (JSS_setPasswordCallback E1 (some A) w0) h2
  have hBv := setPasswordCallback_javaVM E2 B (JSS_setPasswordCallback E1 (some A) w0) h2
  have hBt := setPasswordCallback_trace E2 B (JSS_setPasswordCallback E1 (some A) w0) h2
  rw [hAn] at hB
  rw [hA] at hBt
  dsimp only at hBt
  refine ⟨hA, hB, ?_, ?_, ?_, ?_⟩
  · simp [newEvents, hBt]
  · rw [newEvents, hBt, hAt]
    cases h : w0.globalPasswordCallback with
    | none => simp [List.append_assoc, List.count_cons]
    | some old =>
      have hne : old ≠ { id := w0.nextRef, obj := A } := by
        intro heq
        have := hwf old h
        rw [heq] at this
        exact Nat.lt_irrefl _ this
      simp [List.append_assoc, List.count_cons, hne]
  · intro e he hcallee
    have h := (getPWFromCallback_callee E3 (some slot) retry none
      (JSS_setPasswordCallback E2 (some B) (JSS_setPasswordCallback E1 (some A) w0))).2 e he A hcallee
    rw [hB] at h
    simp at h
    exact hAB h.symm
  · intro hvm hat hs hf hg hn hm
    exact getPWFromCallback_invokes E3 slot retry none _ B (by rw [hB]; rfl)
      (by rw [hBv, hAv, hvm]) hat hs hf hg hn hm

/-- Witness of C10: objects 1 and 2 registered in turn on the initialized
world, then a first-attempt password request for the token `token`. -/
theorem C10_second_default_callback_replaces_first_witness :
    twoCallbacksWorld.globalPasswordCallback = some { id := 1, obj := 2 } ∧
    newEvents (JSS_setPasswordCallback {} (some 1) initializedWorld) twoCallbacksWorld =
      [Event.DeleteGlobalRef { id := 0, obj := 1 }, Event.NewGlobalRef 2] ∧
    (newEvents initializedWorld twoCallbacksWorld).count
      (Event.DeleteGlobalRef { id := 0, obj := 1 }) = 1 ∧
    (∀ e ∈ newEvents twoCallbacksWorld
        (getPWFromCallback {} (some { tokenName := "token" }) false none twoCallbacksWorld).world,
      e.callee ≠ some 1) ∧
    Event.CallObjectMethod 2 "PW_CALLBACK_GET_PW_FIRST_NAME" "token" ∈
      newEvents twoCallbacksWorld
        (getPWFromCallback {} (some { tokenName := "token" }) false none twoCallbacksWorld).world :=
  ⟨(C10_second_default_callback_replaces_first {} {} {} 1 2 { tokenName := "token" } false
      initializedWorld (by decide) rfl rfl (fun _ h => Option.noConfusion h)).2.1,
   (C10_second_default_callback_replaces_first {} {} {} 1 2 { tokenName := "token" } false
      initializedWorld (by decide) rfl rfl (fun _ h => Option.noConfusion h)).2.2.1,
   (C10_second_default_callback_replaces_first {} {} {} 1 2 { tokenName := "token" } false
      initializedWorld (by decide) rfl rfl (fun _ h => Option.noConfusion h)).2.2.2.1,
   (C10_second_default_callback_replaces_first {} {} {} 1 2 { tokenName := "token" } false
      initializedWorld (by decide) rfl rfl (fun _ h => Option.noConfusion h)).2.2.2.2.1,
   (C10_second_default_callback_replaces_first {} {} {} 1 2 { tokenName := "token" } false
      initializedWorld (by decide) rfl rfl (fun _ h => Option.noConfusion h)).2.2.2.2.2
      rfl rfl rfl rfl rfl rfl rfl⟩

/-- C11: a call of `getPWFromCallback` in which `GetByteArrayElements` was
called and gave the bytes of the password.  The call returns, with nothing
pending: the duplicate of the password characters when `PL_strdup` succeeds,
`NULL` when it fails.  In both cases the buffer is handed back once
(`JSS_DerefByteArray`), after `JSS_wipeCharArray`: it has the length of the
byte copy, and every byte of it that held a character of the password is
zero. -/
theorem C11_extracted_bytes_are_wiped (E : Env) (slot : Option Slot) (retry : Bool)
    (arg : Option JObject) (w : World)
    (hG : E.GetByteArrayElements = true)
    (hcall : Event.GetByteArrayElements ∈
      newEvents w (getPWFromCallback E slot retry arg w).world) :
    ∃ cb bytes w', effectiveCallback arg w = some cb ∧
      (E.callback cb).byteCopy = some bytes ∧
      getPWFromCallback E slot retry arg w =
        Outcome.returned (if E.PL_strdup then some (cString bytes) else none) w' ∧
      w'.pending = none ∧
      releasedBuffers w w' = [JSS_wipeCharArray bytes] ∧
      (JSS_wipeCharArray bytes).length = bytes.length ∧
      ∀ i, i < (cString bytes).length → (JSS_wipeCharArray bytes)[i]? = some 0 := by
  rcases getPWFromCallback_cases E slot retry arg w with ⟨cb, hcb, bytes, w', hb, ho, hp, _, hr⟩ | h
  · exact ⟨cb, bytes, w', hcb, hb, ho, hp, hr, wipe_length bytes, wipe_zero bytes⟩
  · have := h.2 _ hcall
    simp [Event.isExtraction, hG] at this

/-- Witness of C11: the password `sec`; `PL_strdup` fails. -/
theorem C11_extracted_bytes_are_wiped_witness :
    ∃ w', getPWFromCallback { passwordCallbackEnv with PL_strdup := false }
        (some { tokenName := "token" }) false (some 7) initializedWorld =
        Outcome.returned none w' ∧
      w'.pending = none ∧
      releasedBuffers initializedWorld w' = [[0, 0, 0, 0]] := by
  obtain ⟨cb, bytes, w', _, hb, ho, hp, hr, _, _⟩ :=
    C11_extracted_bytes_are_wiped { passwordCallbackEnv with PL_strdup := false }
      (some { tokenName := "token" }) false (some 7) initializedWorld rfl (by decide)
  have hbytes : bytes = [115, 101, 99, 0] := (Option.some.inj hb).symm
  subst hbytes
  exact ⟨w', ho, hp, hr⟩

/-- C12, as the claim states it, fails: in a `DEBUG` build in which the
callback raises an exception of its own, the function stops at the assertion
of line 742 and returns nothing. -/
theorem C12_debug_build_aborts_counterexample :
    (throwingCallbackDebug.callback 7).getPasswordFirstAttempt "token" =
      CallbackResult.threw { cls := ExcClass.OTHER "java.lang.IllegalStateException" } ∧
    (getPWFromCallback throwingCallbackDebug (some { tokenName := "token" }) false (some 7)
      initializedWorld).value? = none :=
  ⟨rfl, rfl⟩

/-- C12, amended: a call of `getPWFromCallback` for a slot that starts with no
exception pending.  Whenever the call returns, no exception is pending, and
the result is not `NULL` only if nothing failed on the way: a callback was
there, the `TokenCallbackInfo` was built, the callback method was found, the
callback returned a password, the class and the accessors of the password were
found, and neither `getByteCopy` nor `clear` raised; so after each of these
failures a call that returns, returns `NULL`.  In a build without `DEBUG` the
call does return when the JavaVM was captured, the thread attaches and
`getByteCopy` gives an array whenever it raises nothing. -/
theorem C12_failures_return_null_nothing_pending (E : Env) (slot : Slot) (retry : Bool)
    (arg : Option JObject) (w : World) (hp : w.pending = none) :
    (∀ r w', getPWFromCallback E (some slot) retry arg w = Outcome.returned r w' →
      w'.pending = none ∧
      (r ≠ none → ∃ cb, effectiveCallback arg w = some cb ∧
        passwordPathClear E slot retry cb = true)) ∧
    (E.DEBUG = false → w.JSS_javaVM = true → E.AttachCurrentThread = 0 →
      (∀ o, (E.callback o).byteCopy ≠ none) →
      ∃ r w', getPWFromCallback E (some slot) retry arg w = Outcome.returned r w') :=
  ⟨fun r w' h => getPWFromCallback_safe E slot retry arg w hp r w' h,
    fun hD hvm hat hb => getPWFromCallback_release E slot retry arg w hD hvm hat hb⟩

/-- Witness of C12: a build without `DEBUG` in which the callback raises an
exception of its own; the call returns `NULL` with nothing pending. -/
theorem C12_failures_return_null_nothing_pending_witness :
    initializedWorld.pending = none ∧
    ∃ r w', getPWFromCallback { throwingCallbackDebug with DEBUG := false }
        (some { tokenName := "token" }) false (some 7) initializedWorld =
        Outcome.returned r w' ∧
      r = none ∧ w'.pending = none := by
  have T := C12_failures_return_null_nothing_pending
    { throwingCallbackDebug with DEBUG := false } { tokenName := "token" } false (some 7)
    initializedWorld rfl
  obtain ⟨r, w', h⟩ := T.2 rfl rfl rfl (fun _ h => Option.noConfusion h)
  refine ⟨rfl, r, w', h, ?_, (T.1 r w' h).1⟩
  by_contra hr
  obtain ⟨cb, hcb, hc⟩ := (T.1 r w' h).2 hr
  have h7 : cb = 7 := (Option.some.inj hcb).symm
  subst h7
  exact absurd hc (by decide)

/-- C13: from a world in which FIPS mode is off, a call `enableFIPS(true)`
that raises nothing returns `true` and leaves FIPS mode on, having called
`SECMOD_DeleteInternalModule` once; the call `enableFIPS(true)` that follows
returns `false` and changes nothing: it makes no library call and raises
nothing. -/
theorem C13_enableFIPS_twice_true_then_false (E1 E2 : Env) (w : World)
    (hoff : FIPSEnabled w = false)
    (hok : (enableFIPS E1 true w).2.pending = none) :
    (enableFIPS E1 true w).1 = true ∧
    FIPSEnabled (enableFIPS E1 true w).2 = true ∧
    (∃ name, newEvents w (enableFIPS E1 true w).2 = [Event.SECMOD_DeleteInternalModule name]) ∧
    enableFIPS E2 true (enableFIPS E1 true w).2 = (false, (enableFIPS E1 true w).2) := by
  have hf : w.fips = false := by
    cases h : w.fips
    · rfl
    · simp [FIPSEnabled, h] at hoff
  generalize hn : (if E1.PL_strdup then some E1.internalModuleName else none) = name
  cases hd : E1.SECMOD_DeleteInternalModule name with
  | SECFailure =>
    simp [enableFIPS, SECMOD_DeleteInternalModule, hf, hn, hd, JSS_throwMsg] at hok
  | SECSuccess =>
    have h1 : enableFIPS E1 true w =
        (true, { w.emit (Event.SECMOD_DeleteInternalModule name) with fips := true }) := by
      simp [enableFIPS, SECMOD_DeleteInternalModule, hf, hn, hd, World.emit]
    rw [h1]
    refine ⟨rfl, rfl, ⟨name, ?_⟩, ?_⟩
    · simp [newEvents, World.emit]
    · simp [enableFIPS]

/-- Witness of C13: the initial world, FIPS mode off, and the default
library answers. -/
theorem C13_enableFIPS_twice_true_then_false_witness :
    FIPSEnabled {} = false ∧
    (enableFIPS {} true {}).1 = true ∧
    (enableFIPS {} true (enableFIPS {} true {}).2).1 = false :=
  ⟨rfl, (C13_enableFIPS_twice_true_then_false {} {} {} rfl rfl).1,
    congrArg Prod.fst (C13_enableFIPS_twice_true_then_false {} {} {} rfl rfl).2.2.2⟩

/-- C14: when the `Vector` class and `addElement` are found and every module
of the list wraps, `putModulesInVector` returns having appended one handle per
module, in list order, to what the vector held: as many handles as the list
has modules.  The module list keeps its entries (same names, same length);
the reference count of every module is one higher than before, the read lock
is released and no exception is raised.  Releasing every handle that was
returned gives back the module list as it was before the call, counts
included. -/
theorem C14_snapshot_wraps_every_module (E : Env) (vector : List PK11Module) (w : World)
    (hc : E.vectorClassFound = true) (hm : E.GetMethodID_addElement = none)
    (hw : ∀ i, i < w.modules.length → E.wrap i = WrapResult.wrapped) :
    ∃ w', putModulesInVector E vector w =
        Outcome.returned (vector ++ handles w.modules.length) w' ∧
      (handles w.modules.length).length = w.modules.length ∧
      w'.modules.map SECMODModule.commonName = w.modules.map SECMODModule.commonName ∧
      w'.modules.map SECMODModule.refCount = w.modules.map (fun m => m.refCount + 1) ∧
      w'.readLocks = w.readLocks ∧ w'.pending = w.pending ∧
      ((handles w.modules.length).foldl releaseHandle w').modules = w.modules := by
  obtain ⟨w1, h1, h2, h3, h4⟩ := putModulesLoop_wrapped E w.modules.length 0 vector
    (SECMOD_GetReadLock (w.emit (Event.GetMethodID "VECTOR_CLASS" "VECTOR_ADD_ELEMENT_NAME")))
    (fun j _ hj => hw j (by omega))
  have hmod : w1.modules = w.modules.map SECMODModule.ref := by
    rw [h2, getReadLock_modules, emit_modules,
      foldl_adjustModule_zero _ _ _ (Nat.le_refl _)]
    simp
  refine ⟨SECMOD_ReleaseReadLock w1, ?_, ?_, ?_, ?_, ?_, ?_, ?_⟩
  · unfold putModulesInVector
    simp only [hc, hm, Bool.not_true, Bool.false_eq_true, if_false, getReadLock_modules,
      emit_modules, h1]
    simp [handles, List.range_eq_range']
  · simp [handles]
  · rw [releaseReadLock_modules, hmod]
    simp [SECMODModule.ref, Function.comp_def]
  · rw [releaseReadLock_modules, hmod]
    simp [SECMODModule.ref, Function.comp_def]
  · rw [releaseReadLock_readLocks, h4]
    simp
  · rw [releaseReadLock_pending, h3]
    simp
  · rw [handles, foldl_releaseHandle_modules, releaseReadLock_modules, hmod,
      List.range_eq_range', foldl_adjustModule_zero _ _ _ (by simp)]
    simp [Function.comp_def, unref_ref]

/-- Witness of C14: the two modules of `twoModulesWorld` and the default
library answers. -/
theorem C14_snapshot_wraps_every_module_witness :
    ∃ w', putModulesInVector {} [] twoModulesWorld =
        Outcome.returned ([] ++ handles twoModulesWorld.modules.length) w' ∧
      (handles twoModulesWorld.modules.length).length = twoModulesWorld.modules.length ∧
      w'.modules.map SECMODModule.commonName =
        twoModulesWorld.modules.map SECMODModule.commonName ∧
      w'.modules.map SECMODModule.refCount =
        twoModulesWorld.modules.map (fun m => m.refCount + 1) ∧
      w'.readLocks = twoModulesWorld.readLocks ∧ w'.pending = twoModulesWorld.pending ∧
      ((handles twoModulesWorld.modules.length).foldl releaseHandle w').modules =
        twoModulesWorld.modules :=
  C14_snapshot_wraps_every_module {} [] twoModulesWorld rfl rfl (fun _ _ => rfl)

/-- C15, as the claim states it, fails: with two modules on the list and the
wrap of the second one failing, the vector that was empty before the call
holds the handle of the first module after it. -/
theorem C15_partial_result_kept_counterexample :
    secondWrapFails.wrap 1 =
      WrapResult.failed { cls := ExcClass.OUT_OF_MEMORY_ERROR } true ∧
    (putModulesInVector secondWrapFails [] twoModulesWorld).value? = some [{ ptr := 0 }] :=
  ⟨rfl, rfl⟩

/-- C15, amended: when the entries before position `k` wrap and the wrap of
entry `k` fails with a throwable (in a `DEBUG` build: having reset the
caller's pointer, as line 862 asserts), `putModulesInVector` returns with that
throwable pending.  The vector keeps the handles of the `k` entries wrapped
before the failure, after what it held on entry, and gets no other.  The read
lock is released.  The reference counts of the first `k` modules are one
higher than before, for the handles in the vector; the count of entry `k` and
of the entries after it are as before the call: the reference taken on entry
`k` is released. -/
theorem C15_failed_wrap_keeps_earlier_handles (E : Env) (vector : List PK11Module) (w : World)
    (k : Nat) (t : Throwable) (cleared : Bool)
    (hc : E.vectorClassFound = true) (hm : E.GetMethodID_addElement = none)
    (hk : k < w.modules.length)
    (hw : ∀ i, i < k → E.wrap i = WrapResult.wrapped)
    (hf : E.wrap k = WrapResult.failed t cleared)
    (hD : E.DEBUG = false ∨ cleared = true) :
    ∃ w', putModulesInVector E vector w = Outcome.returned (vector ++ handles k) w' ∧
      w'.pending = some t ∧
      w'.readLocks = w.readLocks ∧
      w'.modules = (w.modules.take k).map SECMODModule.ref ++ w.modules.drop k := by
  obtain ⟨w1, h1, h2, h3, h4⟩ := putModulesLoop_fails E t cleared hD k 0 w.modules.length vector
    (SECMOD_GetReadLock (w.emit (Event.GetMethodID "VECTOR_CLASS" "VECTOR_ADD_ELEMENT_NAME")))
    (fun j _ hj => hw j (by omega)) (by rw [Nat.zero_add]; exact hf) hk
  rw [Nat.zero_add, getReadLock_modules, emit_modules,
    foldl_adjustModule_zero _ _ _ (Nat.le_of_lt hk)] at h2
  rw [Nat.zero_add] at h1
  cases cleared with
  | true =>
    refine ⟨SECMOD_ReleaseReadLock w1, ?_, ?_, ?_, ?_⟩
    · unfold putModulesInVector
      simp only [hc, hm, Bool.not_true, Bool.false_eq_true, if_false, getReadLock_modules,
        emit_modules, h1]
      simp [handles, List.range_eq_range']
    · rw [releaseReadLock_pending, h3]
    · rw [releaseReadLock_readLocks, h4]
      simp
    · rw [releaseReadLock_modules, h2]
      simp
  | false =>
    refine ⟨SECMOD_DestroyModule k (SECMOD_ReleaseReadLock w1), ?_, ?_, ?_, ?_⟩
    · unfold putModulesInVector
      simp only [hc, hm, Bool.not_true, Bool.false_eq_true, if_false, getReadLock_modules,
        emit_modules, h1]
      simp [handles, List.range_eq_range']
    · rw [destroy_pending, releaseReadLock_pending, h3]
    · rw [destroy_readLocks, releaseReadLock_readLocks, h4]
      simp
    · rw [destroy_modules, releaseReadLock_modules, h2]
      simp [adjustModule_unref_ref]

/-- Witness of C15: two modules, the wrap of the second one fails, having
released the reference it was given. -/
theorem C15_failed_wrap_keeps_earlier_handles_witness :
    ∃ w', putModulesInVector secondWrapFails [] twoModulesWorld =
        Outcome.returned ([] ++ handles 1) w' ∧
      w'.pending = some { cls := ExcClass.OUT_OF_MEMORY_ERROR } ∧
      w'.readLocks = twoModulesWorld.readLocks ∧
      w'.modules = (twoModulesWorld.modules.take 1).map SECMODModule.ref ++
        twoModulesWorld.modules.drop 1 :=
  C15_failed_wrap_keeps_earlier_handles secondWrapFails [] twoModulesWorld 1
    { cls := ExcClass.OUT_OF_MEMORY_ERROR } true rfl rfl (by decide)
    (fun i hi => by
      have h0 : i = 0 := by omega
      subst h0
      rfl)
    rfl (Or.inr rfl)

/-- C16: after a `ConfigureOCSP` that succeeds, whatever the OCSP state was
before, checking is on exactly when `ocspCheckingEnabled` is set; with a
responder URL the default responder is that URL with the given nickname, which
is not `NULL`, and its use is enabled; without one its use is disabled. -/
theorem C16_successful_configure_sets_ocsp_state (E : Env) (enabled : Bool)
    (url nickname : Option String) (w : World)
    (hs : (ConfigureOCSP E enabled url nickname w).1 = SECStatus.SECSuccess) :
    ((ConfigureOCSP E enabled url nickname w).2.ocsp.checking = true ↔ enabled = true) ∧
    (∀ u, url = some u →
      (ConfigureOCSP E enabled url nickname w).2.ocsp.defaultResponderURL = some u ∧
      (ConfigureOCSP E enabled url nickname w).2.ocsp.defaultResponderNickname = nickname ∧
      nickname ≠ none ∧
      (ConfigureOCSP E enabled url nickname w).2.ocsp.useDefaultResponder = true) ∧
    (url = none →
      (ConfigureOCSP E enabled url nickname w).2.ocsp.useDefaultResponder = false) := by
  cases url with
  | none =>
    cases enabled <;>
      simp [ConfigureOCSP, configureResponder, JSS_RefJString, CERT_DisableOCSPChecking,
        CERT_DisableOCSPDefaultResponder, CERT_EnableOCSPChecking]
  | some u =>
    cases nickname with
    | none => simp [ConfigureOCSP, configureResponder, JSS_RefJString] at hs
    | some n =>
      cases h1 : E.CERT_FindCertByNickname (some n) <;>
        cases h2 : E.PK11_FindCertFromNickname (some n) <;>
        cases h3 : E.CERT_SetOCSPDefaultResponder (some u) (some n) <;>
        cases enabled <;>
        simp [ConfigureOCSP, configureResponder, JSS_RefJString, CERT_FindCertByNickname,
          PK11_FindCertFromNickname, CERT_SetOCSPDefaultResponder, h1, h2, h3] at hs ⊢

/-- Witness of C16: checking was on and no responder was set, the certificate
`responder` is in the database; checking is turned off and the responder
`http://ocsp.example.org` with that certificate is set. -/
theorem C16_successful_configure_sets_ocsp_state_witness :
    (ConfigureOCSP { CERT_FindCertByNickname := fun _ => true } false
      (some "http://ocsp.example.org") (some "responder")
      { ocsp := { checking := true } }).1 = SECStatus.SECSuccess ∧
    (ConfigureOCSP { CERT_FindCertByNickname := fun _ => true } false
      (some "http://ocsp.example.org") (some "responder")
      { ocsp := { checking := true } }).2.ocsp =
      { checking := false, useDefaultResponder := true,
        defaultResponderURL := some "http://ocsp.example.org",
        defaultResponderNickname := some "responder" } ∧
    ((ConfigureOCSP { CERT_FindCertByNickname := fun _ => true } false
      (some "http://ocsp.example.org") (some "responder")
      { ocsp := { checking := true } }).2.ocsp.checking = true ↔ false = true) :=
  ⟨rfl, rfl,
    (C16_successful_configure_sets_ocsp_state { CERT_FindCertByNickname := fun _ => true } false
      (some "http://ocsp.example.org") (some "responder") { ocsp := { checking := true } } rfl).1⟩

/-- C17: `initializeAllNative` is `initializeAllNative2` on the same arguments
with `initializeJavaOnly` replaced by `false`: the two calls end the same way
in the same world (state, calls made, exception pending), and the value the
caller gives for `initializeJavaOnly` changes nothing. -/
theorem C17_initializeAllNative_forces_full_init (E : Env) (a : InitArgs) (w : World) :
    initializeAllNative E a w = initializeAllNative_spec E a w ∧
    ∀ b : Bool, initializeAllNative E { a with initializeJavaOnly := b } w =
      initializeAllNative E a w :=
  ⟨rfl, fun _ => rfl⟩

end JSS
